import Mathlib

/-! Verification of the multi-agent data-analysis pipeline.

Shallow embedding of the analysis core of the ADAA backend
(`backend/app/agents/`): the base-agent execution contract, the
orchestrator, the data profiler, the enhanced profiling utilities
(outlier detection, quality scoring), the insight-discovery agent, the
visualization agent's recommendation step and the recommendation agent.

Numeric cell values are modelled as rationals (`ℚ`); pandas `NaN` /
`None` cells are modelled as `Option.none`.  Statistical quantities
that Python computes with floating point (quantiles, means, variances)
are computed exactly over `ℚ`; tests of the form `|z| > 3` on a
standard deviation are embedded squared (`(x - μ)² > 9·σ²`), which is
equivalent for a positive variance and keeps every definition
executable.  Where the source calls an external numeric routine whose
value none of the verified properties depend on (scipy `linregress`,
pandas `skew`/`kurtosis`, the pandas string-to-datetime parser and the
pairwise-complete correlation matrix), the embedding takes that
routine as an explicit function parameter.
-/

namespace ADAA

/-! ## Core tabular data model

A pandas `DataFrame` is a list of named, homogeneously typed columns.
`numeric` models an int64/float64 column, `text` an object (string)
column, `dt` a datetime64 column (cells as epoch numbers).  `nrows`
models `len(df)`; a well-formed frame has every column of that length
(`DataFrame.Wf`). -/

inductive Column where
  | numeric (name : String) (cells : List (Option ℚ))
  | text (name : String) (cells : List (Option String))
  | dt (name : String) (cells : List (Option ℚ))
deriving DecidableEq, Repr

structure DataFrame where
  nrows : ℕ
  cols : List Column
deriving DecidableEq, Repr

def Column.name : Column → String
  | .numeric n _ => n
  | .text n _ => n
  | .dt n _ => n

def Column.size : Column → ℕ
  | .numeric _ cs => cs.length
  | .text _ cs => cs.length
  | .dt _ cs => cs.length

def Column.nonNullCount : Column → ℕ
  | .numeric _ cs => (cs.filterMap id).length
  | .text _ cs => (cs.filterMap id).length
  | .dt _ cs => (cs.filterMap id).length

def DataFrame.Wf (df : DataFrame) : Prop :=
  ∀ c ∈ df.cols, c.size = df.nrows

instance (df : DataFrame) : Decidable df.Wf := by
  unfold DataFrame.Wf; infer_instance

/-- `df.select_dtypes(include=[np.number])`: the numeric columns, in order. -/
def DataFrame.numericCols (df : DataFrame) : List (String × List (Option ℚ)) :=
  df.cols.filterMap fun c =>
    match c with
    | .numeric n cs => some (n, cs)
    | _ => none

/-- `df.select_dtypes(include=['object', 'category'])`: the object columns. -/
def DataFrame.textCols (df : DataFrame) : List (String × List (Option String)) :=
  df.cols.filterMap fun c =>
    match c with
    | .text n cs => some (n, cs)
    | _ => none

/-! ## Statistical primitives (pandas Series operations) -/

/-- Evaluation helper: `Int.toNat` on a numeral. -/
theorem int_toNat_lit (n : ℕ) : Int.toNat (no_index (OfNat.ofNat n)) = OfNat.ofNat n := rfl

/-- `series.dropna()` for a numeric column. -/
def dropna (cells : List (Option ℚ)) : List ℚ := cells.filterMap id

/-- `series.dropna()` keeping the original integer index, as pandas does. -/
def dropnaIdx (cells : List (Option ℚ)) : List (ℕ × ℚ) :=
  cells.enum.filterMap fun p => p.2.map fun v => (p.1, v)

/-- `series.mean()`.  On an empty series pandas yields `NaN`; every call
site in the source guards against that, so the junk value `0` of the
rational division by zero is never observed. -/
def mean (l : List ℚ) : ℚ := l.sum / l.length

/-- `series.var()` / the square of `series.std()` with pandas' default
`ddof = 1`.  For fewer than two values pandas yields `NaN`; callers
treat that case separately, so it is mapped to `0` here. -/
def sampleVar (l : List ℚ) : ℚ :=
  if l.length < 2 then 0
  else (l.map fun x => (x - mean l) ^ 2).sum / ((l.length : ℚ) - 1)

/-- Population variance (`ddof = 0`), the square of what
`scipy.stats.zscore` divides by. -/
def popVar (l : List ℚ) : ℚ :=
  if l.length = 0 then 0
  else (l.map fun x => (x - mean l) ^ 2).sum / (l.length : ℚ)

/-- `series.quantile(q)` with pandas' default linear interpolation:
the value at fractional position `q * (n - 1)` of the sorted values. -/
def quantile (l : List ℚ) (q : ℚ) : ℚ :=
  let s := List.insertionSort (· ≤ ·) l
  if s.length = 0 then 0
  else
    let pos : ℚ := q * ((s.length : ℚ) - 1)
    let f : ℕ := (⌊pos⌋).toNat
    let g : ℚ := pos - (f : ℚ)
    match s.get? (f + 1) with
    | some hi => s.getD f 0 + g * (hi - s.getD f 0)
    | none => s.getD f 0

theorem sampleVar_nonneg (l : List ℚ) : 0 ≤ sampleVar l := by
  unfold sampleVar
  split
  · exact le_refl 0
  · rename_i h
    apply div_nonneg
    · apply List.sum_nonneg
      intro x hx
      obtain ⟨y, _, rfl⟩ := List.mem_map.mp hx
      positivity
    · have : 2 ≤ l.length := not_lt.mp h
      have : (2 : ℚ) ≤ (l.length : ℚ) := by exact_mod_cast this
      linarith

/-! ## Enhanced outlier detection (`enhanced_profiling.py`,
`EnhancedOutlierDetection`) -/

/-- `_iqr_method` with the default `factor = 1.5`: flag values outside
`[Q1 - 1.5*IQR, Q3 + 1.5*IQR]`. -/
def iqrFlag (vals : List ℚ) (x : ℚ) : Bool :=
  let q1 := quantile vals (1/4)
  let q3 := quantile vals (3/4)
  let iqr := q3 - q1
  decide (x < q1 - (3/2) * iqr) || decide (x > q3 + (3/2) * iqr)

/-- `_zscore_method` with the default `threshold = 3.0`.  The source
computes `|x - mean| / std > 3` with the sample std; this is embedded
squared ((x - μ)² > 9·σ²), equivalent when the variance is positive.
With a single value pandas' `std()` is `NaN` and the comparison with
`NaN` is `False`; with `std == 0` the source returns all-`False`
explicitly. -/
def zscoreFlag (vals : List ℚ) (x : ℚ) : Bool :=
  if vals.length < 2 then false
  else
    let v := sampleVar vals
    if v = 0 then false
    else decide ((x - mean vals) ^ 2 > 9 * v)

/-- The number of enabled method masks (`len(outlier_masks)`). -/
def numMethods (methods : List String) : ℕ :=
  (if "iqr" ∈ methods then 1 else 0) + (if "zscore" ∈ methods then 1 else 0)

/-- How many enabled methods flag the value `x` (the per-row sum of the
boolean masks). -/
def methodVotes (methods : List String) (vals : List ℚ) (x : ℚ) : ℕ :=
  (if "iqr" ∈ methods then (if iqrFlag vals x then 1 else 0) else 0) +
    (if "zscore" ∈ methods then (if zscoreFlag vals x then 1 else 0) else 0)

structure OutlierReport where
  outliers : List (ℕ × ℚ)
  outlier_count : ℕ
  outlier_percentage : ℚ
  methods_used : List String
  severity : String
deriving DecidableEq, Repr

/-- `EnhancedOutlierDetection.detect_outliers`.  The value is flagged
when `sum(masks) >= len(masks) / 2`, embedded as
`2 * votes ≥ numMethods`.  The percentage is taken over the non-null
count, and severity is bucketed high (>10), medium (>5), low (>0). -/
def detect_outliers (methods : List String) (cells : List (Option ℚ)) : OutlierReport :=
  let nn := dropnaIdx cells
  if nn.isEmpty then ⟨[], 0, 0, methods, "none"⟩
  else
    let m := numMethods methods
    if m = 0 then ⟨[], 0, 0, methods, "none"⟩
    else
      let vals := nn.map Prod.snd
      let out := nn.filter fun p => decide (2 * methodVotes methods vals p.2 ≥ m)
      let cnt := out.length
      let pct := (cnt : ℚ) / (nn.length : ℚ) * 100
      ⟨out, cnt, pct,
        methods,
        if pct > 10 then "high" else if pct > 5 then "medium"
          else if pct > 0 then "low" else "none"⟩

/-- The default method list used when `methods is None`. -/
def defaultMethods : List String := ["iqr", "zscore"]

theorem enumFrom_filterMap_snd (n : ℕ) (cells : List (Option ℚ)) :
    (((List.enumFrom n cells).filterMap fun p => p.2.map fun v => (p.1, v)).map
      Prod.snd) = cells.filterMap id := by
  induction cells generalizing n with
  | nil => rfl
  | cons c cs ih =>
    cases c with
    | none => simpa [List.enumFrom, List.filterMap_cons] using ih (n + 1)
    | some v => simpa [List.enumFrom, List.filterMap_cons] using ih (n + 1)

theorem dropnaIdx_map_snd (cells : List (Option ℚ)) :
    (dropnaIdx cells).map Prod.snd = dropna cells := by
  unfold dropnaIdx dropna
  simpa [List.enum] using enumFrom_filterMap_snd 0 cells

/-- The claim's notion of "a majority of the enabled methods flag the
value": strictly more than half of them do. -/
def StrictMajorityFlags (methods : List String) (vals : List ℚ) (x : ℚ) : Prop :=
  2 * methodVotes methods vals x > numMethods methods

instance (methods : List String) (vals : List ℚ) (x : ℚ) :
    Decidable (StrictMajorityFlags methods vals x) := by
  unfold StrictMajorityFlags; infer_instance

/-- A concrete numeric series on which the IQR test flags the value 10
but the z-score test does not. -/
def c4Series : List (Option ℚ) := [some 0, some 0, some 0, some 0, some 10]

/-- C4 counterexample: with the two default methods enabled, the value
10 of `c4Series` is reported as an outlier by `detect_outliers`, yet
only one of the two enabled methods (IQR, not z-score) flags it — so it
is not flagged by a majority of the enabled methods, refuting the
claimed "if and only if a majority of the enabled methods flag it". -/
theorem detect_outliers_majority_counterexample :
    (detect_outliers defaultMethods c4Series).outliers = [(4, (10 : ℚ))] ∧
      ¬ StrictMajorityFlags defaultMethods (dropna c4Series) 10 := by
  constructor
  · norm_num [detect_outliers, c4Series, defaultMethods, dropnaIdx, List.enum,
      List.enumFrom, List.filterMap_cons, numMethods, methodVotes, iqrFlag, zscoreFlag,
      quantile, sampleVar, mean, List.insertionSort, List.orderedInsert, int_toNat_lit,
      List.getElem_cons_succ, List.getElem_cons_zero, List.filter_cons]
  · norm_num [StrictMajorityFlags, c4Series, defaultMethods, dropna, numMethods,
      methodVotes, iqrFlag, zscoreFlag, quantile, sampleVar, mean, List.insertionSort,
      List.orderedInsert, int_toNat_lit, List.getElem_cons_succ, List.getElem_cons_zero,
      List.filterMap_cons]

/-- C4 (amended): with the default enabled methods, a value is reported
as an outlier if and only if AT LEAST HALF of the enabled methods flag
it — i.e. the IQR test or the z-score test flags it; severity is
"high" when the outlier percentage exceeds 10, "medium" when it
exceeds 5, "low" when it exceeds 0, and "none" otherwise. -/
theorem detect_outliers_default_spec (cells : List (Option ℚ)) (i : ℕ) (x : ℚ) :
    ((i, x) ∈ (detect_outliers defaultMethods cells).outliers ↔
      ((i, x) ∈ dropnaIdx cells ∧
        (iqrFlag (dropna cells) x = true ∨ zscoreFlag (dropna cells) x = true))) ∧
      (detect_outliers defaultMethods cells).severity =
        (if (detect_outliers defaultMethods cells).outlier_percentage > 10 then "high"
          else if (detect_outliers defaultMethods cells).outlier_percentage > 5 then "medium"
          else if (detect_outliers defaultMethods cells).outlier_percentage > 0 then "low"
          else "none") := by
  unfold detect_outliers
  by_cases hnn : (dropnaIdx cells).isEmpty = true
  · rw [if_pos hnn]
    constructor
    · constructor
      · intro h; simp at h
      · rintro ⟨hmem, _⟩
        rw [List.isEmpty_iff] at hnn
        rw [hnn] at hmem
        simp at hmem
    · norm_num
  · rw [if_neg hnn, if_neg (by decide : ¬ (numMethods defaultMethods = 0))]
    constructor
    · have hm : numMethods defaultMethods = 2 := by decide
      simp only [hm]
      rw [List.mem_filter, dropnaIdx_map_snd]
      constructor
      · rintro ⟨hmem, hflag⟩
        refine ⟨hmem, ?_⟩
        simp only [decide_eq_true_eq] at hflag
        unfold methodVotes at hflag
        have hiqr : ("iqr" ∈ defaultMethods) := by decide
        have hz : ("zscore" ∈ defaultMethods) := by decide
        simp only [if_pos hiqr, if_pos hz] at hflag
        by_cases hiq : iqrFlag (dropna cells) x = true
        · exact Or.inl hiq
        · by_cases hzs : zscoreFlag (dropna cells) x = true
          · exact Or.inr hzs
          · rw [if_neg hiq, if_neg hzs] at hflag
            omega
      · rintro ⟨hmem, hflag⟩
        refine ⟨hmem, ?_⟩
        simp only [decide_eq_true_eq]
        unfold methodVotes
        have hiqr : ("iqr" ∈ defaultMethods) := by decide
        have hz : ("zscore" ∈ defaultMethods) := by decide
        simp only [if_pos hiqr, if_pos hz]
        rcases hflag with h | h <;> simp [h]
    · rfl

/-! ## Enhanced quality scoring (`enhanced_profiling.py`,
`EnhancedQualityScoring`)

All four sub-scores are on the 0–100 percentage scale, as in the
source.  The standard deviation of string lengths in the consistency
heuristic is irrational in general, so that one score is real-valued
(`Real.sqrt`); everything else stays in `ℚ`. -/

/-- A cell tagged with its column dtype, for row-level duplicate
detection (`df.drop_duplicates()`). -/
inductive CellV where
  | numV (v : Option ℚ)
  | strV (v : Option String)
  | dtV (v : Option ℚ)
deriving DecidableEq, Repr

def Column.cellAt : Column → ℕ → CellV
  | .numeric _ cs, i => .numV (cs.getD i none)
  | .text _ cs, i => .strV (cs.getD i none)
  | .dt _ cs, i => .dtV (cs.getD i none)

def DataFrame.rows (df : DataFrame) : List (List CellV) :=
  (List.range df.nrows).map fun i => df.cols.map fun c => c.cellAt i

def Column.isNumeric : Column → Bool
  | .numeric _ _ => true
  | _ => false

/-- `_calculate_completeness`: non-null cells over total cells, as a
percentage; an empty frame scores 100. -/
def completeness (df : DataFrame) : ℚ :=
  let total := df.nrows * df.cols.length
  if total = 0 then 100
  else (((df.cols.map Column.nonNullCount).sum : ℚ) / (total : ℚ)) * 100

/-- String lengths of the non-null entries
(`non_null.astype(str).str.len()`). -/
def lengthsOf (cs : List (Option String)) : List ℕ :=
  (cs.filterMap id).map String.length

/-- The text branch of `_calculate_consistency`:
`cv = std / mean if mean > 0 else 0`, `score = max(0, 100 - cv * 50)`.
With exactly one value pandas' sample std is `NaN`, `cv` is `NaN`, and
CPython's `max(0, nan)` evaluates to `0`; with `mean == 0` (all empty
strings) `cv` is `0` and the score is 100. -/
noncomputable def lengthScore (ln : List ℕ) : ℝ :=
  let lq : List ℚ := ln.map fun k => (k : ℚ)
  let μ : ℚ := mean lq
  if 0 < μ then
    if ln.length < 2 then 0
    else max 0 (100 - (Real.sqrt ((sampleVar lq : ℚ) : ℝ) / (μ : ℝ)) * 50)
  else 100

/-- Per-column consistency score; `none` when the column is entirely
null (the loop `continue`s).  A numeric dtype scores 100 outright.  A
datetime64 column is not numeric-dtyped, so it takes the text branch;
its `astype(str)` values all have the fixed 19-character form
`YYYY-MM-DD HH:MM:SS`, hence the replicated length list. -/
noncomputable def colConsistency : Column → Option ℝ
  | .numeric _ cs => if (cs.filterMap id).length = 0 then none else some 100
  | .dt _ cs =>
      if (cs.filterMap id).length = 0 then none
      else some (lengthScore (List.replicate (cs.filterMap id).length 19))
  | .text _ cs =>
      if (cs.filterMap id).length = 0 then none
      else some (lengthScore (lengthsOf cs))

/-- `_calculate_consistency`: mean of the per-column scores, 100 when
no column contributes. -/
noncomputable def consistency (df : DataFrame) : ℝ :=
  let scores := df.cols.filterMap colConsistency
  if scores.length = 0 then 100 else scores.sum / (scores.length : ℝ)

/-- Per-column accuracy score (numeric columns only):
`max(0, 100 - outlier_percentage * 2)` with the default detection
methods. -/
def colAccuracy : Column → Option ℚ
  | .numeric _ cs =>
      some (max 0 (100 - (detect_outliers defaultMethods cs).outlier_percentage * 2))
  | _ => none

/-- `_calculate_accuracy`: mean of the per-column scores, 100 when
there is no numeric column. -/
def accuracy (df : DataFrame) : ℚ :=
  let scores := df.cols.filterMap colAccuracy
  if scores.length = 0 then 100 else scores.sum / (scores.length : ℚ)

/-- `_calculate_uniqueness`: distinct rows over total rows, as a
percentage; an empty frame scores 100. -/
def uniqueness (df : DataFrame) : ℚ :=
  if df.nrows = 0 then 100
  else ((df.rows.dedup.length : ℚ) / (df.nrows : ℚ)) * 100

structure QualityScores where
  overall : ℝ
  completeness : ℚ
  consistency : ℝ
  accuracy : ℚ
  uniqueness : ℚ

/-- `EnhancedQualityScoring.calculate_quality_score`: the four
sub-scores and the weighted overall score
`completeness*0.4 + consistency*0.2 + accuracy*0.2 + uniqueness*0.2`. -/
noncomputable def calculate_quality_score (df : DataFrame) : QualityScores :=
  let comp := completeness df
  let cons := consistency df
  let acc := accuracy df
  let uniq := uniqueness df
  ⟨(comp : ℝ) * 0.4 + cons * 0.2 + (acc : ℝ) * 0.2 + (uniq : ℝ) * 0.2,
    comp, cons, acc, uniq⟩

/-- A numeric column with no value reported as an outlier by the
enhanced detection (and trivially every non-numeric column). -/
def OutlierFree : Column → Prop
  | .numeric _ cs => (detect_outliers defaultMethods cs).outlier_count = 0
  | _ => True

instance (c : Column) : Decidable (OutlierFree c) := by
  unfold OutlierFree; cases c <;> infer_instance

theorem avg_bounds {K : Type} [LinearOrderedField K] (l : List K) (a b : K)
    (h : ∀ x ∈ l, a ≤ x ∧ x ≤ b) (hne : l.length ≠ 0) :
    a ≤ l.sum / (l.length : K) ∧ l.sum / (l.length : K) ≤ b := by
  have hpos : (0 : K) < (l.length : K) := by
    exact_mod_cast Nat.pos_of_ne_zero hne
  constructor
  · rw [le_div_iff₀ hpos]
    have := List.card_nsmul_le_sum l a fun x hx => (h x hx).1
    rwa [nsmul_eq_mul, mul_comm] at this
  · rw [div_le_iff₀ hpos]
    have := List.sum_le_card_nsmul l b fun x hx => (h x hx).2
    rwa [nsmul_eq_mul, mul_comm (l.length : K)] at this

theorem sum_of_const {K : Type} [LinearOrderedField K] :
    ∀ (l : List K) (a : K), (∀ x ∈ l, x = a) → l.sum = (l.length : K) * a := by
  intro l a h
  induction l with
  | nil => simp
  | cons x xs ih =>
    simp only [List.sum_cons, List.length_cons]
    rw [h x (List.mem_cons_self x xs), ih fun y hy => h y (List.mem_cons_of_mem x hy)]
    push_cast
    ring

theorem avg_const {K : Type} [LinearOrderedField K] (l : List K) (a : K)
    (h : ∀ x ∈ l, x = a) (hne : l.length ≠ 0) :
    l.sum / (l.length : K) = a := by
  have hpos : (0 : K) < (l.length : K) := by
    exact_mod_cast Nat.pos_of_ne_zero hne
  rw [sum_of_const l a h, mul_comm, mul_div_assoc, div_self (ne_of_gt hpos), mul_one]

theorem outlier_percentage_nonneg (m : List String) (cs : List (Option ℚ)) :
    0 ≤ (detect_outliers m cs).outlier_percentage := by
  unfold detect_outliers
  dsimp only
  split
  · exact le_refl 0
  · split
    · exact le_refl 0
    · positivity

theorem outlier_count_zero_pct (m : List String) (cs : List (Option ℚ))
    (h : (detect_outliers m cs).outlier_count = 0) :
    (detect_outliers m cs).outlier_percentage = 0 := by
  unfold detect_outliers at h ⊢
  by_cases h1 : (dropnaIdx cs).isEmpty = true
  · rw [if_pos h1]
  · rw [if_neg h1] at h ⊢
    by_cases h2 : numMethods m = 0
    · rw [if_pos h2]
    · rw [if_neg h2] at h ⊢
      dsimp only at h ⊢
      rw [h]
      simp

theorem lengthScore_bounds (ln : List ℕ) :
    0 ≤ lengthScore ln ∧ lengthScore ln ≤ 100 := by
  unfold lengthScore
  dsimp only
  split
  · rename_i hmu
    split
    · norm_num
    · constructor
      · exact le_max_left 0 _
      · apply max_le (by norm_num)
        have h1 : (0 : ℝ) ≤ Real.sqrt ((sampleVar (ln.map fun k => (k : ℚ)) : ℚ) : ℝ) :=
          Real.sqrt_nonneg _
        have h2 : (0 : ℝ) < ((mean (ln.map fun k => (k : ℚ)) : ℚ) : ℝ) := by
          exact_mod_cast hmu
        have h3 : (0 : ℝ) ≤
            Real.sqrt ((sampleVar (ln.map fun k => (k : ℚ)) : ℚ) : ℝ) /
              ((mean (ln.map fun k => (k : ℚ)) : ℚ) : ℝ) * 50 := by positivity
        linarith
  · norm_num

theorem colConsistency_bounds (c : Column) (x : ℝ) (h : colConsistency c = some x) :
    0 ≤ x ∧ x ≤ 100 := by
  cases c with
  | numeric n cs =>
    simp only [colConsistency] at h
    split at h
    · simp at h
    · rw [Option.some_inj] at h
      rw [← h]; norm_num
  | dt n cs =>
    simp only [colConsistency] at h
    split at h
    · simp at h
    · rw [Option.some_inj] at h
      rw [← h]; exact lengthScore_bounds _
  | text n cs =>
    simp only [colConsistency] at h
    split at h
    · simp at h
    · rw [Option.some_inj] at h
      rw [← h]; exact lengthScore_bounds _

theorem consistency_bounds (df : DataFrame) :
    0 ≤ consistency df ∧ consistency df ≤ 100 := by
  unfold consistency
  dsimp only
  split
  · norm_num
  · rename_i hne
    apply avg_bounds
    · intro x hx
      obtain ⟨c, _, hc⟩ := List.mem_filterMap.mp hx
      exact colConsistency_bounds c x hc
    · exact hne

theorem colAccuracy_bounds (c : Column) (x : ℚ) (h : colAccuracy c = some x) :
    0 ≤ x ∧ x ≤ 100 := by
  cases c with
  | numeric n cs =>
    simp only [colAccuracy] at h
    rw [Option.some_inj] at h
    rw [← h]
    constructor
    · exact le_max_left 0 _
    · apply max_le (by norm_num)
      have := outlier_percentage_nonneg defaultMethods cs
      linarith
  | dt n cs => simp [colAccuracy] at h
  | text n cs => simp [colAccuracy] at h

theorem accuracy_bounds (df : DataFrame) :
    0 ≤ accuracy df ∧ accuracy df ≤ 100 := by
  unfold accuracy
  dsimp only
  split
  · norm_num
  · rename_i hne
    apply avg_bounds
    · intro x hx
      obtain ⟨c, _, hc⟩ := List.mem_filterMap.mp hx
      exact colAccuracy_bounds c x hc
    · exact hne

theorem nonNullCount_le_size (c : Column) : c.nonNullCount ≤ c.size := by
  cases c <;> exact List.length_filterMap_le _ _

theorem sum_size_eq (df : DataFrame) (hwf : df.Wf) :
    (df.cols.map Column.size).sum = df.cols.length * df.nrows := by
  have h1 : df.cols.map Column.size = df.cols.map fun _ => df.nrows :=
    List.map_congr_left fun c hc => hwf c hc
  rw [h1]
  induction df.cols with
  | nil => simp
  | cons c cs ih => simp_all [Nat.succ_mul, Nat.add_comm]

theorem completeness_bounds (df : DataFrame) (hwf : df.Wf) :
    0 ≤ completeness df ∧ completeness df ≤ 100 := by
  unfold completeness
  dsimp only
  split
  · norm_num
  · rename_i hne
    constructor
    · positivity
    · have hsum : (df.cols.map Column.nonNullCount).sum ≤ df.nrows * df.cols.length := by
        calc (df.cols.map Column.nonNullCount).sum
            ≤ (df.cols.map Column.size).sum := by
              apply List.sum_le_sum
              intro c hc
              exact nonNullCount_le_size c
          _ = df.cols.length * df.nrows := sum_size_eq df hwf
          _ = df.nrows * df.cols.length := Nat.mul_comm _ _
      have hpos : (0 : ℚ) < ((df.nrows * df.cols.length : ℕ) : ℚ) := by
        exact_mod_cast Nat.pos_of_ne_zero hne
      have hq : ((df.cols.map Column.nonNullCount).sum : ℚ) ≤
          ((df.nrows * df.cols.length : ℕ) : ℚ) := by exact_mod_cast hsum
      have : ((df.cols.map Column.nonNullCount).sum : ℚ) /
          ((df.nrows * df.cols.length : ℕ) : ℚ) ≤ 1 := by
        rw [div_le_one hpos]; exact hq
      nlinarith

theorem uniqueness_bounds (df : DataFrame) :
    0 ≤ uniqueness df ∧ uniqueness df ≤ 100 := by
  unfold uniqueness
  split
  · norm_num
  · rename_i hne
    constructor
    · positivity
    · have hlen : df.rows.dedup.length ≤ df.nrows := by
        have h1 : df.rows.dedup.length ≤ df.rows.length :=
          (List.dedup_sublist _).length_le
        have h2 : df.rows.length = df.nrows := by simp [DataFrame.rows]
        omega
      have hpos : (0 : ℚ) < (df.nrows : ℚ) := by
        exact_mod_cast Nat.pos_of_ne_zero hne
      have hq : (df.rows.dedup.length : ℚ) ≤ (df.nrows : ℚ) := by exact_mod_cast hlen
      have : (df.rows.dedup.length : ℚ) / (df.nrows : ℚ) ≤ 1 := by
        rw [div_le_one hpos]; exact hq
      nlinarith

theorem completeness_perfect (df : DataFrame) (hwf : df.Wf)
    (hnm : ∀ c ∈ df.cols, c.nonNullCount = c.size) : completeness df = 100 := by
  unfold completeness
  dsimp only
  split
  · rfl
  · rename_i hne
    have h1 : df.cols.map Column.nonNullCount = df.cols.map Column.size :=
      List.map_congr_left hnm
    rw [h1, sum_size_eq df hwf]
    have hpos : (0 : ℚ) < ((df.nrows * df.cols.length : ℕ) : ℚ) := by
      exact_mod_cast Nat.pos_of_ne_zero hne
    rw [show df.cols.length * df.nrows = df.nrows * df.cols.length from Nat.mul_comm _ _]
    rw [div_self (ne_of_gt hpos)]
    norm_num

theorem accuracy_perfect (df : DataFrame) (hof : ∀ c ∈ df.cols, OutlierFree c) :
    accuracy df = 100 := by
  unfold accuracy
  dsimp only
  split
  · rfl
  · rename_i hne
    apply avg_const
    · intro x hx
      obtain ⟨c, hc, hcx⟩ := List.mem_filterMap.mp hx
      cases c with
      | numeric n cs =>
        simp only [colAccuracy, Option.some_inj] at hcx
        have hfree : (detect_outliers defaultMethods cs).outlier_count = 0 := hof _ hc
        have hpct := outlier_count_zero_pct defaultMethods cs hfree
        rw [hpct] at hcx
        rw [← hcx]
        norm_num
      | dt n cs => simp [colAccuracy] at hcx
      | text n cs => simp [colAccuracy] at hcx
    · exact hne

theorem uniqueness_perfect (df : DataFrame) (hnd : df.rows.Nodup) :
    uniqueness df = 100 := by
  unfold uniqueness
  split
  · rfl
  · rename_i hne
    rw [List.dedup_eq_self.mpr hnd]
    have h2 : df.rows.length = df.nrows := by simp [DataFrame.rows]
    rw [h2]
    have hpos : (0 : ℚ) < (df.nrows : ℚ) := by
      exact_mod_cast Nat.pos_of_ne_zero hne
    rw [div_self (ne_of_gt hpos)]
    norm_num

theorem consistency_all_numeric (df : DataFrame)
    (hnum : ∀ c ∈ df.cols, c.isNumeric = true) : consistency df = 100 := by
  unfold consistency
  dsimp only
  split
  · rfl
  · rename_i hne
    apply avg_const
    · intro x hx
      obtain ⟨c, hc, hcx⟩ := List.mem_filterMap.mp hx
      cases c with
      | numeric n cs =>
        simp only [colConsistency] at hcx
        split at hcx
        · simp at hcx
        · rw [Option.some_inj] at hcx
          exact hcx.symm
      | dt n cs => simp [Column.isNumeric] at hnum; exact absurd (hnum _ hc) (by simp)
      | text n cs => simp [Column.isNumeric] at hnum; exact absurd (hnum _ hc) (by simp)
    · exact hne

/-- C5: the enhanced quality score is the weighted combination
0.4/0.2/0.2/0.2 of the completeness, consistency, accuracy and
uniqueness sub-scores; every sub-score and the overall score lie in the
declared 0–100 percentage scale; and a dataset with no missing values,
no outliers and no duplicate rows scores at or near the maximum (at
least 80 of 100 in general — consistency is the only sub-score that can
fall below 100 on such data — and exactly 100 when every column is
numeric). -/
theorem calculate_quality_score_spec (df : DataFrame) (hwf : df.Wf) :
    (calculate_quality_score df).overall =
        ((calculate_quality_score df).completeness : ℝ) * 0.4 +
          (calculate_quality_score df).consistency * 0.2 +
          ((calculate_quality_score df).accuracy : ℝ) * 0.2 +
          ((calculate_quality_score df).uniqueness : ℝ) * 0.2 ∧
      (0 ≤ (calculate_quality_score df).completeness ∧
        (calculate_quality_score df).completeness ≤ 100) ∧
      (0 ≤ (calculate_quality_score df).consistency ∧
        (calculate_quality_score df).consistency ≤ 100) ∧
      (0 ≤ (calculate_quality_score df).accuracy ∧
        (calculate_quality_score df).accuracy ≤ 100) ∧
      (0 ≤ (calculate_quality_score df).uniqueness ∧
        (calculate_quality_score df).uniqueness ≤ 100) ∧
      (0 ≤ (calculate_quality_score df).overall ∧
        (calculate_quality_score df).overall ≤ 100) ∧
      ((∀ c ∈ df.cols, c.nonNullCount = c.size) →
        (∀ c ∈ df.cols, OutlierFree c) →
        df.rows.Nodup →
        80 ≤ (calculate_quality_score df).overall ∧
          ((∀ c ∈ df.cols, c.isNumeric = true) →
            (calculate_quality_score df).overall = 100)) := by
  have hcomp := completeness_bounds df hwf
  have hcons := consistency_bounds df
  have hacc := accuracy_bounds df
  have huniq := uniqueness_bounds df
  have hcompR : (0 : ℝ) ≤ (completeness df : ℝ) ∧ (completeness df : ℝ) ≤ 100 := by
    exact_mod_cast hcomp
  have haccR : (0 : ℝ) ≤ (accuracy df : ℝ) ∧ (accuracy df : ℝ) ≤ 100 := by
    exact_mod_cast hacc
  have huniqR : (0 : ℝ) ≤ (uniqueness df : ℝ) ∧ (uniqueness df : ℝ) ≤ 100 := by
    exact_mod_cast huniq
  unfold calculate_quality_score
  dsimp only
  refine ⟨rfl, hcomp, hcons, hacc, huniq, ⟨?_, ?_⟩, ?_⟩
  · nlinarith [hcompR.1, hcons.1, haccR.1, huniqR.1]
  · nlinarith [hcompR.2, hcons.2, haccR.2, huniqR.2]
  · intro hnm hof hnd
    have h1 : completeness df = 100 := completeness_perfect df hwf hnm
    have h2 : accuracy df = 100 := accuracy_perfect df hof
    have h3 : uniqueness df = 100 := uniqueness_perfect df hnd
    rw [h1, h2, h3]
    constructor
    · push_cast
      nlinarith [hcons.1]
    · intro hnum
      rw [consistency_all_numeric df hnum]
      norm_num

/-- A concrete perfect dataset: one numeric column, no missing values,
no outliers, no duplicate rows. -/
def dfPerfect : DataFrame := ⟨3, [Column.numeric "x" [some 1, some 2, some 3]]⟩

theorem dfPerfect_outliers :
    detect_outliers defaultMethods [some 1, some 2, some (3:ℚ)] =
      ⟨[], 0, 0, defaultMethods, "none"⟩ := by
  norm_num [detect_outliers, defaultMethods, dropnaIdx, List.enum, List.enumFrom,
    List.filterMap_cons, numMethods, methodVotes, iqrFlag, zscoreFlag, quantile,
    sampleVar, mean, List.insertionSort, List.orderedInsert, int_toNat_lit,
    List.getElem_cons_succ, List.getElem_cons_zero, List.filter_cons]

/-- Witness for C5 at `dfPerfect`, discharging every hypothesis. -/
theorem calculate_quality_score_spec_witness :
    80 ≤ (calculate_quality_score dfPerfect).overall ∧
      (calculate_quality_score dfPerfect).overall = 100 := by
  have h := calculate_quality_score_spec dfPerfect (by decide)
  have hperf := h.2.2.2.2.2.2
    (by decide)
    (by
      intro c hc
      have : c = Column.numeric "x" [some 1, some 2, some 3] := by
        simpa [dfPerfect] using hc
      rw [this]
      show (detect_outliers defaultMethods [some 1, some 2, some (3:ℚ)]).outlier_count = 0
      rw [dfPerfect_outliers])
    (by decide)
  exact ⟨hperf.1, hperf.2 (by decide)⟩

/-! ## Correlation discovery (`insight_discovery.py`,
`InsightDiscoveryAgent._find_correlations`)

The pandas correlation matrix holds floating-point Pearson
coefficients, possibly `NaN` for degenerate pairs; it is modelled as a
function parameter `corr : ℕ → ℕ → Option ℚ` over column positions,
with `none` playing `NaN` (every comparison against `NaN` is `False`,
so such pairs are skipped).  The separate predicate `IsPearsonMatrix`
states that the supplied matrix is the Pearson matrix of the column
data. -/

structure CorrRec where
  column1 : String
  column2 : String
  correlation : ℚ
  strength : String
  direction : String
  confidence : ℚ
deriving DecidableEq, Repr

/-- One retained correlation record, exactly as `_find_correlations`
builds it: strength strong(>0.8)/moderate(>0.6)/weak, direction by the
sign, confidence `min(|r|, 0.95)`. -/
def mkCorrRec (ncols : List String) (i j : ℕ) (r : ℚ) : CorrRec :=
  ⟨ncols.getD i "", ncols.getD j "", r,
    if |r| > 0.8 then "strong" else if |r| > 0.6 then "moderate" else "weak",
    if r > 0 then "positive" else "negative",
    min |r| 0.95⟩

/-- The double loop `for i, col1 in enumerate(...): for j, col2 in
enumerate(...)`, skipping `i >= j`, keeping pairs with `|r| ≥ 0.5`
(`self.correlation_threshold`). -/
def corrPairs (ncols : List String) (corr : ℕ → ℕ → Option ℚ) : List CorrRec :=
  (List.range ncols.length).flatMap fun i =>
    (List.range ncols.length).filterMap fun j =>
      if i < j then
        match corr i j with
        | none => none
        | some r => if |r| ≥ 1/2 then some (mkCorrRec ncols i j r) else none
      else none

/-- The sort key `abs(x["correlation"])`, descending; Python's `sort`
is stable, as is insertion sort with a non-strict relation. -/
def corrLE (a b : CorrRec) : Prop := |b.correlation| ≤ |a.correlation|

instance : DecidableRel corrLE := fun a b => by unfold corrLE; infer_instance

instance : IsTotal CorrRec corrLE :=
  ⟨fun a b => le_total (|b.correlation|) (|a.correlation|)⟩

instance : IsTrans CorrRec corrLE :=
  ⟨fun _ _ _ h1 h2 => le_trans h2 h1⟩

/-- `_find_correlations`: fewer than 2 numeric columns yields `[]`;
otherwise the qualifying pairs, sorted by `|r|` descending, top 10. -/
def find_correlations (ncols : List String) (corr : ℕ → ℕ → Option ℚ) : List CorrRec :=
  if ncols.length < 2 then []
  else (List.insertionSort corrLE (corrPairs ncols corr)).take 10

/-- Centered cross-product sum; `sxy xs xs` is the centered sum of
squares. -/
def sxy (xs ys : List ℚ) : ℚ :=
  ((xs.zip ys).map fun p => (p.1 - mean xs) * (p.2 - mean ys)).sum

/-- The Pearson product-moment coefficient of two equal-length
samples. -/
noncomputable def pearsonR (xs ys : List ℚ) : ℝ :=
  ((sxy xs ys : ℚ) : ℝ) / Real.sqrt (((sxy xs xs * sxy ys ys : ℚ) : ℝ))

/-- The rows where both columns are non-null — pandas `DataFrame.corr`
computes each entry over the pairwise-complete observations. -/
def pairedVals (a b : List (Option ℚ)) : List (ℚ × ℚ) :=
  (a.zip b).filterMap fun p => p.1.bind fun x => p.2.map fun y => (x, y)

/-- The supplied matrix is the Pearson matrix of the column data
(stated over ℝ because the coefficient is irrational in general). -/
def IsPearsonMatrix (data : ℕ → List (Option ℚ)) (corr : ℕ → ℕ → Option ℚ) : Prop :=
  ∀ i j, i < j → ∀ r, corr i j = some r →
    (r : ℝ) = pearsonR ((pairedVals (data i) (data j)).map Prod.fst)
        ((pairedVals (data i) (data j)).map Prod.snd)

theorem corrPairs_mem (ncols : List String) (corr : ℕ → ℕ → Option ℚ) (rec : CorrRec)
    (h : rec ∈ corrPairs ncols corr) :
    ∃ i j r, i < j ∧ j < ncols.length ∧ corr i j = some r ∧ |r| ≥ 1/2 ∧
      rec = mkCorrRec ncols i j r := by
  unfold corrPairs at h
  obtain ⟨i, hi, hmem⟩ := List.mem_flatMap.mp h
  obtain ⟨j, hj, heq⟩ := List.mem_filterMap.mp hmem
  rw [List.mem_range] at hj
  split at heq
  · rename_i hij
    cases hcorr : corr i j with
    | none => rw [hcorr] at heq; simp at heq
    | some r =>
      rw [hcorr] at heq
      dsimp only at heq
      by_cases hr : |r| ≥ 1/2
      · rw [if_pos hr] at heq
        rw [Option.some_inj] at heq
        exact ⟨i, j, r, hij, hj, hcorr, hr, heq.symm⟩
      · rw [if_neg hr] at heq
        simp at heq
  · simp at heq

theorem corrPairs_mem_of (ncols : List String) (corr : ℕ → ℕ → Option ℚ)
    (i j : ℕ) (r : ℚ) (hij : i < j) (hjn : j < ncols.length)
    (hcorr : corr i j = some r) (hr : |r| ≥ 1/2) :
    mkCorrRec ncols i j r ∈ corrPairs ncols corr := by
  unfold corrPairs
  apply List.mem_flatMap.mpr
  refine ⟨i, List.mem_range.mpr (lt_trans hij hjn), ?_⟩
  apply List.mem_filterMap.mpr
  refine ⟨j, List.mem_range.mpr hjn, ?_⟩
  rw [if_pos hij, hcorr]
  dsimp only
  rw [if_pos hr]

/-- C6: correlation discovery never pairs a column with itself nor
reports both (A,B) and (B,A); every reported pair carries `|r| ≥ 0.5`,
the strong/moderate/weak and positive/negative labels and
`confidence = min(|r|, 0.95)`; the result is sorted by `|r|`
descending and holds at most 10 records; with fewer than two numeric
columns it is empty; when at most 10 pairs qualify, every qualifying
pair is reported; and when the matrix is the Pearson matrix of the
column data, every reported `r` is the Pearson coefficient of its two
columns. -/
theorem find_correlations_spec (ncols : List String) (data : ℕ → List (Option ℚ))
    (corr : ℕ → ℕ → Option ℚ) (hnd : ncols.Nodup)
    (hp : IsPearsonMatrix data corr) :
    (find_correlations ncols corr).length ≤ 10 ∧
      (∀ rec ∈ find_correlations ncols corr,
        ∃ i j r, i < j ∧ j < ncols.length ∧ corr i j = some r ∧ |r| ≥ 1/2 ∧
          rec.column1 = ncols.getD i "" ∧ rec.column2 = ncols.getD j "" ∧
          rec.correlation = r ∧
          rec.strength = (if |r| > 0.8 then "strong"
            else if |r| > 0.6 then "moderate" else "weak") ∧
          rec.direction = (if r > 0 then "positive" else "negative") ∧
          rec.confidence = min (|r|) 0.95 ∧
          (r : ℝ) = pearsonR ((pairedVals (data i) (data j)).map Prod.fst)
            ((pairedVals (data i) (data j)).map Prod.snd)) ∧
      (∀ r1 ∈ find_correlations ncols corr, ∀ r2 ∈ find_correlations ncols corr,
        ¬(r1.column1 = r2.column2 ∧ r1.column2 = r2.column1)) ∧
      (find_correlations ncols corr).Sorted corrLE ∧
      (ncols.length < 2 → find_correlations ncols corr = []) ∧
      ((corrPairs ncols corr).length ≤ 10 →
        ∀ i j r, i < j → j < ncols.length → corr i j = some r → |r| ≥ 1/2 →
          mkCorrRec ncols i j r ∈ find_correlations ncols corr) := by
  have hmem : ∀ rec ∈ find_correlations ncols corr,
      ∃ i j r, i < j ∧ j < ncols.length ∧ corr i j = some r ∧ |r| ≥ 1/2 ∧
        rec = mkCorrRec ncols i j r := by
    intro rec hrec
    unfold find_correlations at hrec
    split at hrec
    · simp at hrec
    · have h1 : rec ∈ List.insertionSort corrLE (corrPairs ncols corr) :=
        List.take_subset _ _ hrec
      have h2 : rec ∈ corrPairs ncols corr := (List.mem_insertionSort _).mp h1
      exact corrPairs_mem ncols corr rec h2
  refine ⟨?_, ?_, ?_, ?_, ?_, ?_⟩
  · unfold find_correlations
    split
    · simp
    · exact List.length_take_le _ _
  · intro rec hrec
    obtain ⟨i, j, r, hij, hjn, hcorr, hr, hrec_eq⟩ := hmem rec hrec
    refine ⟨i, j, r, hij, hjn, hcorr, hr, ?_, ?_, ?_, ?_, ?_, ?_, ?_⟩
    all_goals first
      | (rw [hrec_eq]; rfl)
      | exact hp i j hij r hcorr
  · intro r1 h1 r2 h2 ⟨hc1, hc2⟩
    obtain ⟨i1, j1, v1, hij1, hjn1, _, _, he1⟩ := hmem r1 h1
    obtain ⟨i2, j2, v2, hij2, hjn2, _, _, he2⟩ := hmem r2 h2
    have hi1 : i1 < ncols.length := lt_trans hij1 hjn1
    have hi2 : i2 < ncols.length := lt_trans hij2 hjn2
    rw [he1, he2] at hc1 hc2
    simp only [mkCorrRec] at hc1 hc2
    rw [List.getD_eq_getElem ncols "" hi1, List.getD_eq_getElem ncols "" hjn2] at hc1
    rw [List.getD_eq_getElem ncols "" hjn1, List.getD_eq_getElem ncols "" hi2] at hc2
    have e1 : i1 = j2 := (hnd.getElem_inj_iff).mp hc1
    have e2 : j1 = i2 := (hnd.getElem_inj_iff).mp hc2
    omega
  · unfold find_correlations
    split
    · exact List.sorted_nil
    · exact ((List.sorted_insertionSort corrLE _).sublist (List.take_sublist _ _))
  · intro hlt
    unfold find_correlations
    rw [if_pos hlt]
  · intro hlen i j r hij hjn hcorr hr
    have hmem2 : mkCorrRec ncols i j r ∈ corrPairs ncols corr :=
      corrPairs_mem_of ncols corr i j r hij hjn hcorr hr
    unfold find_correlations
    split
    · rename_i hlt
      omega
    · have hsortlen : (List.insertionSort corrLE (corrPairs ncols corr)).length ≤ 10 := by
        rw [List.length_insertionSort]
        exact hlen
      rw [List.take_of_length_le hsortlen]
      exact (List.mem_insertionSort _).mpr hmem2

/-- Concrete data for the C6 witness: `y = 2x + 1` on three rows, whose
Pearson coefficient is exactly 1. -/
def c6Data : ℕ → List (Option ℚ)
  | 0 => [some 1, some 2, some 3]
  | 1 => [some 3, some 5, some 7]
  | _ => []

/-- The exact Pearson matrix of `c6Data`: 1 at the only pair of real
columns, `NaN` (pandas) elsewhere. -/
def c6Corr : ℕ → ℕ → Option ℚ := fun i j => if i = 0 ∧ j = 1 then some 1 else none

theorem c6_paired_fst :
    (pairedVals (c6Data 0) (c6Data 1)).map Prod.fst = [1, 2, 3] := by
  norm_num [pairedVals, c6Data, List.zip_cons_cons, List.filterMap_cons]

theorem c6_paired_snd :
    (pairedVals (c6Data 0) (c6Data 1)).map Prod.snd = [3, 5, 7] := by
  norm_num [pairedVals, c6Data, List.zip_cons_cons, List.filterMap_cons]

theorem c6_pearson : IsPearsonMatrix c6Data c6Corr := by
  intro i j hij r hr
  simp only [c6Corr] at hr
  split at hr
  · rename_i hcase
    obtain ⟨rfl, rfl⟩ := hcase
    rw [Option.some_inj] at hr
    subst hr
    rw [c6_paired_fst, c6_paired_snd]
    have h1 : sxy [1, 2, 3] [3, 5, 7] = 4 := by
      norm_num [sxy, mean, List.zip_cons_cons]
    have h2 : sxy [1, 2, 3] [1, 2, 3] = 2 := by
      norm_num [sxy, mean, List.zip_cons_cons]
    have h3 : sxy [3, 5, 7] [3, 5, 7] = 8 := by
      norm_num [sxy, mean, List.zip_cons_cons]
    rw [pearsonR, h1, h2, h3]
    have h4 : ((2 * 8 : ℚ) : ℝ) = 16 := by norm_num
    rw [h4]
    have h5 : Real.sqrt 16 = 4 := by
      rw [show (16 : ℝ) = 4 ^ 2 by norm_num]
      exact Real.sqrt_sq (by norm_num)
    rw [h5]
    norm_num
  · simp at hr

/-- Witness for C6 on the concrete two-column frame: all hypotheses
discharged at `c6Data`; the perfectly correlated pair is reported. -/
theorem find_correlations_spec_witness :
    (find_correlations ["x", "y"] c6Corr).length ≤ 10 ∧
      (find_correlations ["x", "y"] c6Corr).Sorted corrLE ∧
      mkCorrRec ["x", "y"] 0 1 1 ∈ find_correlations ["x", "y"] c6Corr := by
  have h := find_correlations_spec ["x", "y"] c6Data c6Corr (by decide) c6_pearson
  refine ⟨h.1, h.2.2.2.1, ?_⟩
  apply h.2.2.2.2.2
  · show (corrPairs ["x", "y"] c6Corr).length ≤ 10
    norm_num [corrPairs, c6Corr, List.filterMap_cons, List.range_succ]
  · exact Nat.zero_lt_one
  · norm_num
  · simp [c6Corr]
  · norm_num

/-! ## Data profiler numeric computations (`data_profiler.py`) and
insight-discovery trend/anomaly detection (`insight_discovery.py`)

pandas `skew`/`kurtosis` and scipy `linregress` return floating-point
values that none of the verified properties constrain, so they enter
as function parameters. -/

def listMin : List ℚ → ℚ
  | [] => 0
  | x :: xs => xs.foldl min x

def listMax : List ℚ → ℚ
  | [] => 0
  | x :: xs => xs.foldl max x

structure StatsRec where
  mean : Option ℝ
  median : Option ℝ
  std : Option ℝ
  min : Option ℝ
  max : Option ℝ
  q25 : Option ℝ
  q75 : Option ℝ

/-- All seven fields end up `None` for an all-null (or empty) column:
each field of `_calculate_statistics` is guarded by the same
`if not df[col].isnull().all()` test. -/
def statsNone : StatsRec := ⟨none, none, none, none, none, none, none⟩

noncomputable def statsOfCol (cs : List (Option ℚ)) : StatsRec :=
  if (dropna cs).isEmpty then statsNone
  else
    let v := dropna cs
    ⟨some ((mean v : ℚ) : ℝ), some ((quantile v (1/2) : ℚ) : ℝ),
      some (Real.sqrt ((sampleVar v : ℚ) : ℝ)),
      some ((listMin v : ℚ) : ℝ), some ((listMax v : ℚ) : ℝ),
      some ((quantile v (1/4) : ℚ) : ℝ), some ((quantile v (3/4) : ℚ) : ℝ)⟩

/-- `DataProfilerAgent._calculate_statistics`: one entry per numeric
column (note: zero-row frames with numeric columns still get an
all-`None` entry per column — the loop body runs, only the values are
guarded). -/
noncomputable def calculate_statistics (df : DataFrame) : List (String × StatsRec) :=
  df.numericCols.map fun p => (p.1, statsOfCol p.2)

structure ProfOutlierRec where
  count : ℕ
  percentage : ℚ
  severity : String
  methods_used : List String
deriving DecidableEq, Repr

/-- `DataProfilerAgent._detect_outliers` (enhanced path, which is the
live one since `enhanced_profiling` imports): skip all-null columns,
then record only columns whose enhanced detection found at least one
outlier. -/
def detect_outliers_prof (df : DataFrame) : List (String × ProfOutlierRec) :=
  df.numericCols.filterMap fun p =>
    if (dropna p.2).isEmpty then none
    else
      let r := detect_outliers defaultMethods p.2
      if r.outlier_count > 0 then
        some (p.1, ⟨r.outlier_count, r.outlier_percentage, r.severity, r.methods_used⟩)
      else none

structure DistRec where
  skewness : ℚ
  kurtosis : ℚ
  shape : String
  is_normal : Bool
deriving DecidableEq, Repr

/-- `DataProfilerAgent._analyze_distributions`: skip all-null columns;
shape symmetric (|skew|<0.5) / right_skewed (skew>0) / left_skewed;
normal when |skew|<0.5 and |kurtosis|<3. -/
def analyze_distributions (skewF kurtF : List ℚ → ℚ) (df : DataFrame) :
    List (String × DistRec) :=
  df.numericCols.filterMap fun p =>
    if (dropna p.2).isEmpty then none
    else
      let sk := skewF (dropna p.2)
      let ku := kurtF (dropna p.2)
      some (p.1, ⟨sk, ku,
        if |sk| < 0.5 then "symmetric"
          else if sk > 0 then "right_skewed" else "left_skewed",
        decide (|sk| < 0.5 ∧ |ku| < 3)⟩)

/-- The `(slope, r, p)` triple of `scipy.stats.linregress` (the
intercept and stderr are unused by the source). -/
structure LinRegRes where
  slope : ℚ
  r : ℚ
  p : ℚ

structure TrendRec where
  column : String
  type : String
  slope : ℚ
  r_squared : ℚ
  p_value : ℚ
  percentage_change : ℚ
  confidence : ℚ
  significance : String

/-- `InsightDiscoveryAgent._detect_trends`: regress the non-null
values against their row indices; keep a trend when `p < 0.05` and
`|r| > 0.3`; percentage change from first to last non-null value
(0 when the first is 0); significance high when `p < 0.01`. -/
def detect_trends (linreg : List ℚ → List ℚ → LinRegRes) (df : DataFrame) :
    List TrendRec :=
  df.numericCols.filterMap fun p =>
    let nn := dropnaIdx p.2
    if nn.length < 3 then none
    else
      let xs : List ℚ := nn.map fun q => (q.1 : ℚ)
      let ys : List ℚ := nn.map Prod.snd
      let lr := linreg xs ys
      if lr.p < 0.05 ∧ |lr.r| > 0.3 then
        let startVal := ys.headD 0
        let endVal := ys.getLastD 0
        some ⟨p.1, if lr.slope > 0 then "increasing" else "decreasing",
          lr.slope, lr.r ^ 2, lr.p,
          if startVal ≠ 0 then (endVal - startVal) / startVal * 100 else 0,
          |lr.r|,
          if lr.p < 0.01 then "high" else "medium"⟩
      else none

structure AnomalyRec where
  column : String
  count : ℕ
  percentage : ℚ
  sample_values : List (Option ℚ)
  method : String
  threshold : ℚ
  severity : String
deriving DecidableEq, Repr

/-- `InsightDiscoveryAgent._detect_anomalies`: z-scores of the non-null
values with scipy's population std (`ddof = 0`), `|z| > 3` embedded
squared; a zero variance makes every z-score NaN so nothing is
flagged.  The percentages divide by `len(df)`.  The source's
`df[col].iloc[anomaly_indices]` indexes the ORIGINAL column with
positions computed in the dropped one; the embedding reproduces that
(`sample_values` reads the raw cells at the dropped positions). -/
def detect_anomalies (df : DataFrame) : List AnomalyRec :=
  df.numericCols.filterMap fun p =>
    let v := dropna p.2
    if v.isEmpty then none
    else
      let flaggedPos :=
        if popVar v = 0 then []
        else (List.range v.length).filter fun k =>
          decide ((v.getD k 0 - mean v) ^ 2 > 9 * popVar v)
      if flaggedPos.length > 0 then
        some ⟨p.1, flaggedPos.length, (flaggedPos.length : ℚ) / (df.nrows : ℚ),
          (flaggedPos.take 5).map fun k => p.2.getD k none,
          "z_score", 3,
          if (flaggedPos.length : ℚ) / (df.nrows : ℚ) > 0.05 then "high" else "medium"⟩
      else none

theorem numericCols_mem (df : DataFrame) (p : String × List (Option ℚ))
    (h : p ∈ df.numericCols) : Column.numeric p.1 p.2 ∈ df.cols := by
  unfold DataFrame.numericCols at h
  obtain ⟨c, hc, hcp⟩ := List.mem_filterMap.mp h
  cases c with
  | numeric n cs =>
    rw [Option.some_inj] at hcp
    rw [← hcp]
    exact hc
  | text n cs => simp at hcp
  | dt n cs => simp at hcp

theorem numericCols_cells_nil (df : DataFrame) (hwf : df.Wf) (h0 : df.nrows = 0)
    (p : String × List (Option ℚ)) (h : p ∈ df.numericCols) : p.2 = [] := by
  have hmem := numericCols_mem df p h
  have hsz := hwf _ hmem
  simp only [Column.size] at hsz
  rw [h0] at hsz
  exact List.length_eq_zero.mp hsz

theorem corrPairs_all_none (ncols : List String) (corr : ℕ → ℕ → Option ℚ)
    (h : ∀ i j, corr i j = none) : corrPairs ncols corr = [] := by
  unfold corrPairs
  apply List.flatMap_eq_nil_iff.mpr
  intro i _
  apply List.filterMap_eq_nil_iff.mpr
  intro j _
  rw [h i j]
  split <;> rfl

/-- C7 (amended): on a dataset with zero rows or zero numeric columns,
outlier detection, distribution analysis, trend detection, anomaly
detection and correlation discovery all return empty collections;
descriptive statistics returns an empty collection when there is no
numeric column, but on a zero-row frame it returns one all-`None`
entry per numeric column (the loop body still runs).  The hypothesis
on `corr` records the pandas fact that a correlation over zero
observations is `NaN`. -/
theorem empty_input_spec (df : DataFrame) (skewF kurtF : List ℚ → ℚ)
    (linreg : List ℚ → List ℚ → LinRegRes) (corr : ℕ → ℕ → Option ℚ)
    (hwf : df.Wf) (h : df.nrows = 0 ∨ df.numericCols = [])
    (hcorr : df.nrows = 0 → ∀ i j, corr i j = none) :
    detect_outliers_prof df = [] ∧
      analyze_distributions skewF kurtF df = [] ∧
      detect_trends linreg df = [] ∧
      detect_anomalies df = [] ∧
      find_correlations (df.numericCols.map Prod.fst) corr = [] ∧
      (df.numericCols = [] → calculate_statistics df = []) ∧
      (df.nrows = 0 → calculate_statistics df =
        df.numericCols.map fun p => (p.1, statsNone)) := by
  rcases h with h0 | hnc
  · have hcells : ∀ p ∈ df.numericCols, p.2 = ([] : List (Option ℚ)) :=
      fun p hp => numericCols_cells_nil df hwf h0 p hp
    refine ⟨?_, ?_, ?_, ?_, ?_, ?_, fun _ => ?_⟩
    · apply List.filterMap_eq_nil_iff.mpr
      intro p hp
      rw [hcells p hp]
      rfl
    · apply List.filterMap_eq_nil_iff.mpr
      intro p hp
      rw [hcells p hp]
      rfl
    · apply List.filterMap_eq_nil_iff.mpr
      intro p hp
      rw [hcells p hp]
      rfl
    · apply List.filterMap_eq_nil_iff.mpr
      intro p hp
      rw [hcells p hp]
      rfl
    · unfold find_correlations
      split
      · rfl
      · rw [corrPairs_all_none _ _ (hcorr h0)]
        rfl
    · intro hnc
      unfold calculate_statistics
      rw [hnc]
      rfl
    · unfold calculate_statistics
      apply List.map_congr_left
      intro p hp
      rw [hcells p hp]
      rfl
  · have hnames : df.numericCols.map Prod.fst = [] := by rw [hnc]; rfl
    refine ⟨?_, ?_, ?_, ?_, ?_, fun _ => ?_, fun _ => ?_⟩
    · unfold detect_outliers_prof; rw [hnc]; rfl
    · unfold analyze_distributions; rw [hnc]; rfl
    · unfold detect_trends; rw [hnc]; rfl
    · unfold detect_anomalies; rw [hnc]; rfl
    · unfold find_correlations
      rw [hnames]
      norm_num
    · unfold calculate_statistics; rw [hnc]; rfl
    · unfold calculate_statistics; rw [hnc]; rfl

/-- The C7 counterexample frame: zero rows but one numeric column. -/
def c7Df : DataFrame := ⟨0, [Column.numeric "a" []]⟩

/-- C7 counterexample: on a zero-row frame with a numeric column,
`_calculate_statistics` does NOT return an empty collection — it
returns an all-`None` entry for the column. -/
theorem statistics_zero_rows_counterexample :
    calculate_statistics c7Df = [("a", statsNone)] ∧ calculate_statistics c7Df ≠ [] := by
  constructor
  · rfl
  · intro hcon
    have : (calculate_statistics c7Df).length = 0 := by rw [hcon]; rfl
    rw [show calculate_statistics c7Df = [("a", statsNone)] from rfl] at this
    simp at this

/-- Witness for C7: every hypothesis discharged on the concrete
zero-row frame `c7Df` with the all-`NaN` correlation matrix. -/
theorem empty_input_spec_witness :
    detect_outliers_prof c7Df = [] ∧ detect_anomalies c7Df = [] ∧
      calculate_statistics c7Df = c7Df.numericCols.map fun p => (p.1, statsNone) := by
  have h := empty_input_spec c7Df (fun _ => 0) (fun _ => 0) (fun _ _ => ⟨0, 0, 1⟩)
    (fun _ _ => none) (by decide) (Or.inl rfl) (fun _ _ _ => rfl)
  exact ⟨h.1, h.2.2.2.1, h.2.2.2.2.2.2 rfl⟩

/-! ## Profiler `analyze` (`data_profiler.py`, `DataProfilerAgent`)

`analyze` raises `ValueError` on an unsupported input type; every
other failure of the source surfaces as a raised Python exception,
modelled with `Except String`.  Python's true division raises
`ZeroDivisionError("division by zero")` on a zero denominator, which
is exactly what `pydiv` captures.  The enhanced-profiling module
imports successfully, so the enhanced branches are the live ones.
`pd.to_datetime(sample, format=fmt)` string matching is abstracted as
the parameter `fmtMatch`, and `pd.read_csv` as the loader parameter. -/

def pydiv (a b : ℚ) : Except String ℚ :=
  if b = 0 then .error "division by zero" else .ok (a / b)

/-- The boolean token set of `EnhancedDataTyping._is_boolean`
restricted to strings (for object columns). -/
def boolTokensStr : List String :=
  ["true", "false", "yes", "no", "y", "n", "1", "0", "t", "f",
    "True", "False", "Yes", "No"]

/-- The fixed format list of `EnhancedDataTyping._is_datetime`. -/
def dtFormats : List String :=
  ["%Y-%m-%d", "%Y/%m/%d", "%d-%m-%Y", "%d/%m/%Y", "%Y-%m-%d %H:%M:%S",
    "%Y/%m/%d %H:%M:%S", "%d-%m-%Y %H:%M:%S", "%m/%d/%Y", "%Y%m%d"]

/-- `EnhancedDataTyping.infer_data_type`, reduced to the semantic type
it assigns (the confidence and metadata fields feed no later
computation).  Per dtype:
- a numeric column is `boolean` when it has at most two distinct
  values all equal to 0 or 1 (Python's `1.0 in {True, False, '1', 1,
  0, ...}` is numeric equality); the format-driven datetime parse
  coerces every non-string to `NaT`, so numeric columns are never
  `datetime`; otherwise they are `numeric`;
- a datetime64 column parses wholesale, hence `datetime`;
- an object column checks the boolean token set, then the format
  table on its first 100 non-null values (accept when at least 90%
  match: `10 * matches ≥ 9 * sample size`), then low cardinality
  (ratio < 0.1, i.e. `10 * distinct < count`, or distinct < 50), else
  `text`; an all-null column of any dtype is `null`. -/
def inferType (fmtMatch : String → String → Bool) : Column → String
  | .numeric _ cs =>
      let nn := dropna cs
      if nn.isEmpty then "null"
      else if nn.dedup.length ≤ 2 && nn.all fun v => v == 0 || v == 1 then "boolean"
      else "numeric"
  | .dt _ cs =>
      if (cs.filterMap id).isEmpty then "null" else "datetime"
  | .text _ cs =>
      let nn := cs.filterMap id
      if nn.isEmpty then "null"
      else if nn.dedup.length ≤ 2 && nn.all fun s => s ∈ boolTokensStr then "boolean"
      else if dtFormats.any fun fmt =>
          10 * ((nn.take 100).countP fun s => fmtMatch fmt s) ≥ 9 * (nn.take 100).length
        then "datetime"
      else if 10 * nn.dedup.length < nn.length || nn.dedup.length < 50 then "categorical"
      else "text"

def Column.nunique : Column → ℕ
  | .numeric _ cs => (dropna cs).dedup.length
  | .text _ cs => (cs.filterMap id).dedup.length
  | .dt _ cs => (cs.filterMap id).dedup.length

structure TypeCounts where
  numeric : ℕ
  categorical : ℕ
  datetime : ℕ
  text : ℕ
  boolean : ℕ
  other : ℕ
deriving DecidableEq, Repr

def countsOf (types : List String) : TypeCounts :=
  ⟨types.count "numeric", types.count "categorical", types.count "datetime",
    types.count "text", types.count "boolean",
    (types.filter fun t =>
      !(t ∈ ["numeric", "categorical", "datetime", "text", "boolean"] : Bool)).length⟩

/-- Per-column entry of `_analyze_data_types`: `(name, semantic type,
unique_ratio)`; `unique_ratio = nunique / len(df)` raises on an empty
frame. -/
def colTypeInfo (fmtMatch : String → String → Bool) (nrows : ℕ) (c : Column) :
    Except String (String × String × ℚ) := do
  let ur ← pydiv (c.nunique : ℚ) (nrows : ℚ)
  pure (c.name, inferType fmtMatch c, ur)

/-- `DataProfilerAgent._analyze_data_types`. -/
def analyze_data_types (fmtMatch : String → String → Bool) (df : DataFrame) :
    Except String (List (String × String × ℚ) × TypeCounts) := do
  let infos ← df.cols.mapM (colTypeInfo fmtMatch df.nrows)
  pure (infos, countsOf (infos.map fun i => i.2.1))

structure MissingCol where
  count : ℕ
  percentage : ℚ
  severity : String
deriving DecidableEq, Repr

structure MissingReport where
  total_missing_cells : ℕ
  total_cells : ℕ
  overall_missing_percentage : ℚ
  columns_with_missing : List (String × MissingCol)
  columns_affected : ℕ
deriving DecidableEq, Repr

def Column.missingCount (c : Column) : ℕ := c.size - c.nonNullCount

/-- `DataProfilerAgent._analyze_missing_values`: the per-column
percentage divides by `len(df)` before the `missing_count > 0` guard,
and the overall percentage divides by `total_cells`; both raise on a
degenerate frame. -/
def missingEntry (nrows : ℕ) (c : Column) :
    Except String (Option (String × MissingCol)) := do
  let pct ← pydiv (c.missingCount : ℚ) (nrows : ℚ)
  pure (if c.missingCount > 0 then
      some (c.name, MissingCol.mk c.missingCount pct
        (if pct > 0.3 then "high" else if pct > 0.1 then "medium" else "low"))
    else none)

def analyze_missing_values (df : DataFrame) : Except String MissingReport := do
  let entries ← df.cols.mapM (missingEntry df.nrows)
  let colsMissing := entries.filterMap id
  let totalMissing := (df.cols.map Column.missingCount).sum
  let totalCells := df.nrows * df.cols.length
  let overall ← pydiv (totalMissing : ℚ) (totalCells : ℚ)
  pure ⟨totalMissing, totalCells, overall, colsMissing, colsMissing.length⟩

structure Overview where
  rows : ℕ
  columns : ℕ
  column_names : List String
deriving DecidableEq, Repr

/-- `_get_overview` (the memory-footprint float is omitted — nothing
downstream reads it). -/
def overviewOf (df : DataFrame) : Overview :=
  ⟨df.nrows, df.cols.length, df.cols.map Column.name⟩

structure Issue where
  type : String
  severity : String
  column : Option String

/-- `_identify_quality_issues`.  The overall-quality rule compares the
enhanced 0–100 score against the 0–1 threshold 0.7, exactly as the
source does (the scale mismatch means the rule almost never fires). -/
noncomputable def identify_quality_issues (mv : MissingReport)
    (outliers : List (String × ProfOutlierRec)) (qscore : ℝ) : List Issue :=
  (mv.columns_with_missing.filterMap fun p =>
    if p.2.severity = "high" ∨ p.2.severity = "medium" then
      some ⟨"missing_values", p.2.severity, some p.1⟩
    else none) ++
  (outliers.filterMap fun p =>
    if p.2.severity = "high" then some ⟨"outliers", "high", some p.1⟩ else none) ++
  (if qscore < 0.7 then [⟨"overall_quality", "high", none⟩] else [])

structure ProfRec where
  type : String
  priority : String
  title : String

/-- `_generate_recommendations`. -/
def generate_recommendations (mv : MissingReport) (outlierCols : ℕ)
    (tc : TypeCounts) : List ProfRec :=
  (if mv.overall_missing_percentage > 0.1 then
    [⟨"data_cleaning", "high", "Handle missing values"⟩] else []) ++
  (if outlierCols > 0 then
    [⟨"data_cleaning", "medium", "Investigate outliers"⟩] else []) ++
  (if tc.text > tc.numeric then
    [⟨"data_transformation", "medium", "Convert text to numeric"⟩] else [])

structure ProfResults where
  overview : Overview
  data_types : List (String × String × ℚ) × TypeCounts
  missing_values : MissingReport
  statistics : List (String × StatsRec)
  outliers : List (String × ProfOutlierRec)
  distributions : List (String × DistRec)
  quality_score : ℝ
  quality_breakdown : QualityScores
  quality_issues : List Issue
  recommendations : List ProfRec

inductive PyInput where
  | frame (df : DataFrame)
  | path (s : String)
  | other

/-- The body of `DataProfilerAgent.analyze` once a frame is in hand,
in the evaluation order of the results dict literal. -/
noncomputable def profiler_run (fmtMatch : String → String → Bool)
    (skewF kurtF : List ℚ → ℚ) (df : DataFrame) : Except String ProfResults := do
  let ov := overviewOf df
  let dt ← analyze_data_types fmtMatch df
  let mv ← analyze_missing_values df
  let stats := calculate_statistics df
  let outl := detect_outliers_prof df
  let dist := analyze_distributions skewF kurtF df
  let qb := calculate_quality_score df
  pure ⟨ov, dt, mv, stats, outl, dist, qb.overall, qb,
    identify_quality_issues mv outl qb.overall,
    generate_recommendations mv outl.length dt.2⟩

/-- `DataProfilerAgent.analyze`: a string is read as CSV, a DataFrame
is used as-is, anything else raises
`ValueError("Unsupported data type: ...")`. -/
noncomputable def profiler_analyze (fmtMatch : String → String → Bool)
    (skewF kurtF : List ℚ → ℚ) (loadCsv : String → DataFrame) :
    PyInput → Except String ProfResults
  | .frame d => profiler_run fmtMatch skewF kurtF d
  | .path s => profiler_run fmtMatch skewF kurtF (loadCsv s)
  | .other => .error "Unsupported data type"

/-- C8 evaluation: an unsupported input type raises, as the claim
says; but a zero-row frame with a column ALSO raises
(`ZeroDivisionError` from `unique_ratio = nunique / len(df)` in
`_analyze_data_types`), refuting the "if and only if". -/
theorem profiler_analyze_bug (fmtMatch : String → String → Bool)
    (skewF kurtF : List ℚ → ℚ) (loadCsv : String → DataFrame) :
    profiler_analyze fmtMatch skewF kurtF loadCsv .other =
        .error "Unsupported data type" ∧
      profiler_analyze fmtMatch skewF kurtF loadCsv (.frame c7Df) =
        .error "division by zero" := by
  constructor
  · rfl
  · rfl

theorem except_ok_bind {E α β : Type} (f : α → Except E β) (x : α) :
    ((Except.ok x : Except E α) >>= f) = f x := rfl

theorem except_ok_exists {E α β : Type} (e : Except E α) (f : α → Except E β)
    (he : ∃ a, e = .ok a) (hf : ∀ a, ∃ b, f a = .ok b) :
    ∃ b, (e >>= f) = .ok b := by
  obtain ⟨a, rfl⟩ := he
  rw [except_ok_bind]
  exact hf a

theorem mapM_ok {α β : Type} (f : α → Except String β) (l : List α)
    (h : ∀ a ∈ l, ∃ b, f a = .ok b) : ∃ bs, l.mapM f = .ok bs := by
  induction l with
  | nil => exact ⟨[], rfl⟩
  | cons a as ih =>
    obtain ⟨b, hb⟩ := h a (List.mem_cons_self a as)
    obtain ⟨bs, hbs⟩ := ih fun x hx => h x (List.mem_cons_of_mem a hx)
    refine ⟨b :: bs, ?_⟩
    rw [List.mapM_cons, hb, hbs]
    rfl

theorem pydiv_ok (a b : ℚ) (hb : b ≠ 0) : pydiv a b = .ok (a / b) := by
  unfold pydiv
  rw [if_neg hb]

/-- In support of the valid half of C8: on a well-shaped in-memory
frame (at least one row and one column) the profiler body completes
without raising — all three divisions have non-zero denominators, and
every other computation in the chain is total. -/
theorem profiler_run_ok (fmtMatch : String → String → Bool)
    (skewF kurtF : List ℚ → ℚ) (df : DataFrame)
    (hr : 0 < df.nrows) (hc : df.cols ≠ []) :
    ∃ r, profiler_run fmtMatch skewF kurtF df = .ok r := by
  have hrq : ((df.nrows : ℚ)) ≠ 0 := by
    exact_mod_cast Nat.pos_iff_ne_zero.mp hr
  have hdt : ∃ v, analyze_data_types fmtMatch df = .ok v := by
    obtain ⟨infos, hinfos⟩ := mapM_ok (colTypeInfo fmtMatch df.nrows) df.cols
      (fun c _ => by
        refine ⟨(c.name, inferType fmtMatch c, (c.nunique : ℚ) / (df.nrows : ℚ)), ?_⟩
        unfold colTypeInfo
        rw [pydiv_ok _ _ hrq]
        rfl)
    refine ⟨(infos, countsOf (infos.map fun i => i.2.1)), ?_⟩
    unfold analyze_data_types
    rw [hinfos]
    rfl
  have hme : ∀ c, ∃ b, missingEntry df.nrows c = .ok b := by
    intro c
    unfold missingEntry
    exact except_ok_exists _ _ ⟨_, pydiv_ok _ _ hrq⟩ fun a => ⟨_, rfl⟩
  have hmv : ∃ v, analyze_missing_values df = .ok v := by
    have htc : ((df.nrows * df.cols.length : ℕ) : ℚ) ≠ 0 := by
      have h1 : df.nrows * df.cols.length ≠ 0 :=
        Nat.mul_ne_zero (Nat.pos_iff_ne_zero.mp hr)
          (fun hz => hc (List.length_eq_zero.mp hz))
      exact_mod_cast h1
    unfold analyze_missing_values
    apply except_ok_exists _ _ (mapM_ok (missingEntry df.nrows) df.cols
      fun c _ => hme c)
    intro entries
    dsimp only
    exact except_ok_exists _ _ ⟨_, pydiv_ok _ _ htc⟩ fun a => ⟨_, rfl⟩
  unfold profiler_run
  apply except_ok_exists _ _ hdt
  intro dtv
  dsimp only
  apply except_ok_exists _ _ hmv
  intro mvv
  exact ⟨_, rfl⟩

/-! ## Visualization agent recommendation step (`visualization.py`,
`VisualizationAgent._generate_viz_recommendations`)

The temporal-column scan executes `df[col] = pd.to_datetime(df[col])`
inside a try/except: on the FIRST column that parses, the assignment
replaces that column of the caller's DataFrame in place (`analyze`
binds `df = data` without copying) and the loop breaks.
`pd.to_datetime` succeeds on any numeric column (epoch interpretation)
and on an object column whose values all parse; the string parser is
abstracted as the `strParse` parameter. -/

structure VizRec where
  type : String
  priority : String
  title : String
  suggested_chart : String
deriving DecidableEq, Repr

/-- `pd.to_datetime(df[col])` on a whole column: numeric and
datetime64 columns always convert; an object column converts iff every
non-null entry parses (`errors='raise'` is the default). -/
def pyToDatetimeCol (strParse : String → Option ℚ) : Column → Option Column
  | .numeric n cs => some (.dt n cs)
  | .dt n cs => some (.dt n cs)
  | .text n cs =>
      if cs.all fun o => (o.map fun s => (strParse s).isSome).getD true then
        some (.dt n (cs.map fun o => o.bind strParse))
      else none

/-- The `for col in df.columns: try: df[col] = pd.to_datetime(...);
append; break; except: continue` loop: returns the (possibly mutated)
column list and the time-series recommendation, if any. -/
def vizDatetimeScan (strParse : String → Option ℚ) :
    List Column → List Column × List VizRec
  | [] => ([], [])
  | c :: rest =>
      match pyToDatetimeCol strParse c with
      | some c2 =>
          (c2 :: rest,
            [⟨"time_series", "high",
              "Create time series visualization for " ++ c.name, "line"⟩])
      | none =>
          let t := vizDatetimeScan strParse rest
          (c :: t.1, t.2)

def geoKeywords : List String :=
  ["country", "state", "city", "region", "location", "lat", "lon",
    "latitude", "longitude"]

def containsSub (s sub : String) : Bool := decide (sub.toList.IsInfix s.toList)

/-- `_generate_viz_recommendations`: the datetime scan (with its
in-place column mutation), the geography keyword match, and the
explore-more suggestion when fewer than 3 charts were generated.  The
chart list itself is plotly-built; only its length is read, so it
enters as `chartsCount`. -/
def generate_viz_recommendations (strParse : String → Option ℚ) (df : DataFrame)
    (chartsCount : ℕ) : DataFrame × List VizRec :=
  let scan := vizDatetimeScan strParse df.cols
  let geoRecs :=
    if df.cols.any fun c => geoKeywords.any fun k => containsSub c.name.toLower k then
      [⟨"geographic", "medium", "Create geographic visualization", "map"⟩]
    else []
  let exploreRecs :=
    if chartsCount < 3 then
      [⟨"exploration", "low", "Explore more visualizations", "various"⟩]
    else []
  (⟨df.nrows, scan.1⟩, scan.2 ++ geoRecs ++ exploreRecs)

/-- The C3 counterexample frame: its first column is numeric, so
`pd.to_datetime` succeeds on it. -/
def c3Df : DataFrame := ⟨3, [Column.numeric "a" [some 1, some 2, some 3]]⟩

/-- C3 counterexample: running the visualization agent's
recommendation step on `c3Df` does NOT leave the dataset unchanged —
the first (numeric) column is converted to datetime64 in place, so the
frame the other stages share is mutated. -/
theorem viz_mutates_dataset :
    (generate_viz_recommendations (fun _ => none) c3Df 0).1 ≠ c3Df ∧
      (generate_viz_recommendations (fun _ => none) c3Df 0).1 =
        ⟨3, [Column.dt "a" [some 1, some 2, some 3]]⟩ := by
  decide

/-! ## Recommendation agent (`recommendation.py`, `RecommendationAgent`)

The context dictionary is modelled as optional structured slices with
the source's `.get(key, default)` chains as accessors; a missing
`profiler_results` / `insights` key and an empty dict behave
identically through those accessors.  Recommendation records carry
the fields the verified properties read (id, category, priority,
title); the free-text description/steps/impact fields are constant
per rule and are omitted. -/

structure RecItem where
  id : String
  category : String
  priority : String
  title : String
deriving DecidableEq, Repr

structure CorrLite where
  column1 : String
  column2 : String
  correlation : ℚ
deriving DecidableEq, Repr

/-- The slice of the profiler block the agent reads (numerics as ℚ). -/
structure ProfLite where
  quality_score : Option ℚ
  overall_missing_percentage : Option ℚ
  columns_affected : Option ℕ
  total_outlier_columns : Option ℕ
  categorical_count : Option ℕ
  datetime_count : Option ℕ
  rows : Option ℕ
deriving DecidableEq, Repr

/-- The slice of the insights block the agent reads: `trends` reduced
to the `column` field (the only one read), `insights` to its length. -/
structure InsightsLite where
  correlations : List CorrLite
  trend_columns : List String
  insights_count : ℕ
deriving DecidableEq, Repr

structure RecCtx where
  profiler_results : Option ProfLite
  insights : Option InsightsLite
deriving DecidableEq, Repr

def RecCtx.qualityScore (ctx : RecCtx) : ℚ :=
  (ctx.profiler_results.bind fun p => p.quality_score).getD 1

def RecCtx.overallMissing (ctx : RecCtx) : ℚ :=
  (ctx.profiler_results.bind fun p => p.overall_missing_percentage).getD 0

def RecCtx.outlierCols (ctx : RecCtx) : ℕ :=
  (ctx.profiler_results.bind fun p => p.total_outlier_columns).getD 0

def RecCtx.typeCategorical (ctx : RecCtx) : ℕ :=
  (ctx.profiler_results.bind fun p => p.categorical_count).getD 0

def RecCtx.typeDatetime (ctx : RecCtx) : ℕ :=
  (ctx.profiler_results.bind fun p => p.datetime_count).getD 0

def RecCtx.numRows (ctx : RecCtx) : ℕ :=
  (ctx.profiler_results.bind fun p => p.rows).getD 0

def RecCtx.correlations (ctx : RecCtx) : List CorrLite :=
  (ctx.insights.map fun i => i.correlations).getD []

def RecCtx.trendCols (ctx : RecCtx) : List String :=
  (ctx.insights.map fun i => i.trend_columns).getD []

def RecCtx.insightsCount (ctx : RecCtx) : ℕ :=
  (ctx.insights.map fun i => i.insights_count).getD 0

/-- `_data_quality_recommendations`. -/
def data_quality_recs (ctx : RecCtx) : List RecItem :=
  (if ctx.qualityScore < 0.7 then
    [⟨"dq_001", "data_quality", "critical", "Improve overall data quality"⟩]
  else []) ++
  (if ctx.overallMissing > 0.1 then
    [⟨"dq_002", "data_quality", "high", "Handle missing values"⟩]
  else []) ++
  (if ctx.outlierCols > 0 then
    [⟨"dq_003", "data_quality", "medium", "Investigate outliers"⟩]
  else [])

/-- `_analysis_recommendations`. -/
def analysis_recs (ctx : RecCtx) (df : DataFrame) : List RecItem :=
  (if ctx.correlations.length > 0 then
    (if (ctx.correlations.filter fun c => decide (|c.correlation| > 0.7)) ≠ [] then
      [⟨"an_001", "analysis", "high", "Investigate strong correlations"⟩]
    else [])
  else []) ++
  (if ctx.trendCols.length > 0 then
    [⟨"an_002", "analysis", "medium", "Analyze detected trends"⟩]
  else []) ++
  (if df.textCols.length > 0 then
    [⟨"an_003", "analysis", "low", "Perform segmentation analysis"⟩]
  else [])

/-- The numeric per-column ranges `max - min` over columns that are
not entirely null. -/
def numericRanges (df : DataFrame) : List ℚ :=
  df.numericCols.filterMap fun p =>
    if (dropna p.2).isEmpty then none
    else some (listMax (dropna p.2) - listMin (dropna p.2))

/-- `max(ranges.values()) / min(ranges.values()) > 100`, with numpy
scalar semantics: division by a zero range yields `inf` (> 100 holds
when the numerator is positive) or `nan` (no comparison holds); it
never raises. -/
def rangesSpread (rs : List ℚ) : Prop :=
  rs ≠ [] ∧ ((listMin rs = 0 ∧ 0 < listMax rs) ∨
    (listMin rs ≠ 0 ∧ listMax rs / listMin rs > 100))

instance (rs : List ℚ) : Decidable (rangesSpread rs) := by
  unfold rangesSpread; infer_instance

/-- `_feature_engineering_recommendations`. -/
def feature_eng_recs (df : DataFrame) (ctx : RecCtx) : List RecItem :=
  (if ctx.typeCategorical > 0 then
    [⟨"fe_001", "feature_engineering", "medium", "Encode categorical variables"⟩]
  else []) ++
  (if df.numericCols.length > 1 then
    (if rangesSpread (numericRanges df) then
      [⟨"fe_002", "feature_engineering", "medium", "Normalize numeric features"⟩]
    else [])
  else []) ++
  (if ctx.typeDatetime > 0 then
    [⟨"fe_003", "feature_engineering", "low", "Extract datetime features"⟩]
  else [])

/-- The always-appended low-priority export/share recommendation. -/
def exportRec : RecItem :=
  ⟨"ns_003", "next_steps", "low", "Export and share results"⟩

/-- `_next_steps_recommendations`: always ends with `exportRec`. -/
def next_steps_recs (ctx : RecCtx) : List RecItem :=
  (if ctx.qualityScore > 0.8 ∧ ctx.insightsCount > 3 then
    [⟨"ns_001", "next_steps", "high", "Ready for predictive modeling"⟩]
  else []) ++
  (if ctx.numRows < 100 then
    [⟨"ns_002", "next_steps", "medium", "Collect more data"⟩]
  else []) ++
  [exportRec]

/-- `priority_order.get(x["priority"], 999)`. -/
def priorityRank (p : String) : ℕ :=
  if p = "critical" then 0
  else if p = "high" then 1
  else if p = "medium" then 2
  else if p = "low" then 3
  else 999

/-- The generation-order list, before the final sort. -/
def recPreSort (df : DataFrame) (ctx : RecCtx) : List RecItem :=
  data_quality_recs ctx ++ analysis_recs ctx df ++ feature_eng_recs df ctx ++
    next_steps_recs ctx

def recLE (a b : RecItem) : Prop :=
  priorityRank a.priority ≤ priorityRank b.priority

instance : DecidableRel recLE := fun a b => by unfold recLE; infer_instance

instance : IsTotal RecItem recLE :=
  ⟨fun a b => le_total (priorityRank a.priority) (priorityRank b.priority)⟩

instance : IsTrans RecItem recLE := ⟨fun _ _ _ h1 h2 => le_trans h1 h2⟩

/-- `RecommendationAgent.analyze`: generate, then sort by priority
rank with Python's stable `list.sort` (insertion sort with a
non-strict relation is stable). -/
def recommendation_analyze (df : DataFrame) (ctx : RecCtx) : List RecItem :=
  List.insertionSort recLE (recPreSort df ctx)

theorem orderedInsert_filter_priority (pr : String) (a : RecItem) :
    ∀ l : List RecItem,
      List.filter (fun x => x.priority == pr) (List.orderedInsert recLE a l) =
        if a.priority == pr then
          a :: List.filter (fun x => x.priority == pr) l
        else List.filter (fun x => x.priority == pr) l := by
  intro l
  induction l with
  | nil =>
    rw [List.orderedInsert, List.filter_cons]
  | cons b bs ih =>
    by_cases hr : recLE a b
    · rw [List.orderedInsert, if_pos hr, List.filter_cons]
    · rw [List.orderedInsert, if_neg hr]
      simp only [List.filter_cons, ih]
      by_cases hqa : (a.priority == pr) = true
      · have hqb : (b.priority == pr) = false := by
          by_contra hb
          rw [Bool.not_eq_false] at hb
          apply hr
          unfold recLE
          rw [eq_of_beq hqa, eq_of_beq hb]
        simp [hqa, hqb]
      · rw [Bool.not_eq_true] at hqa
        simp [hqa]

theorem insertionSort_filter_priority (pr : String) :
    ∀ l : List RecItem,
      List.filter (fun x => x.priority == pr) (List.insertionSort recLE l) =
        List.filter (fun x => x.priority == pr) l := by
  intro l
  induction l with
  | nil => rfl
  | cons a as ih =>
    rw [List.insertionSort, orderedInsert_filter_priority, ih, List.filter_cons]

theorem exportRec_mem_preSort (df : DataFrame) (ctx : RecCtx) :
    exportRec ∈ recPreSort df ctx := by
  unfold recPreSort next_steps_recs
  simp [List.mem_append]

/-- C9: the recommendation list is sorted by priority rank
(critical < high < medium < low), the sort is stable (for every
priority, the sub-list of that priority equals the generation-order
sub-list), and the low-priority "Export and share results"
recommendation is always present, for every dataset and context. -/
theorem recommendation_analyze_spec (df : DataFrame) (ctx : RecCtx) :
    (recommendation_analyze df ctx).Sorted recLE ∧
      exportRec ∈ recommendation_analyze df ctx ∧
      ∀ pr, List.filter (fun x => x.priority == pr) (recommendation_analyze df ctx) =
        List.filter (fun x => x.priority == pr) (recPreSort df ctx) := by
  refine ⟨?_, ?_, ?_⟩
  · exact List.sorted_insertionSort recLE (recPreSort df ctx)
  · unfold recommendation_analyze
    exact (List.mem_insertionSort recLE).mpr (exportRec_mem_preSort df ctx)
  · intro pr
    exact insertionSort_filter_priority pr (recPreSort df ctx)

/-! ## Base agent execution contract (`base_agent.py`, `BaseAgent`)

A stage's `analyze` either returns results or raises; `Except String`
models that.  Wall-clock instants enter as natural-number parameters
`t0` (start) and `t1` (end); the activity-callback hook cannot affect
the contract (its exceptions are caught and logged), so activities are
recorded but no callback is modelled. -/

inductive AgentStatus where
  | idle
  | running
  | completed
  | failed
  | cancelled
deriving DecidableEq, Repr

def AgentStatus.value : AgentStatus → String
  | .idle => "idle"
  | .running => "running"
  | .completed => "completed"
  | .failed => "failed"
  | .cancelled => "cancelled"

structure Activity where
  agent_name : String
  action : String
  status : AgentStatus
deriving DecidableEq, Repr

structure AgentState (Res : Type) where
  status : AgentStatus
  results : Option Res
  error : Option String
  start_time : Option ℕ
  end_time : Option ℕ
  activities : List Activity

/-- The freshly constructed agent (`BaseAgent.__init__` /
`reset()`). -/
def initState (Res : Type) : AgentState Res := ⟨.idle, none, none, none, none, []⟩

/-- `get_duration()`: end (or now) minus start; `None` if never
started. -/
def AgentState.duration {Res : Type} (s : AgentState Res) (now : ℕ) : Option ℕ :=
  match s.start_time with
  | none => none
  | some t0 => some (s.end_time.getD now - t0)

/-- The uniform outcome dict of `execute`: the success dict has no
`error` key and the failure dict no `results` key; both are `none` in
the respective case. -/
structure Outcome (Res : Type) where
  agent : String
  status : String
  results : Option Res
  error : Option String
  duration : Option ℕ
  timestamp : Option ℕ

/-- `BaseAgent.execute`: set running/start-time, emit the starting
activity, run `analyze`; on success store results, complete, stamp the
end time, emit the completed activity and return the success outcome;
on ANY exception set failed, capture the message, stamp the end time,
emit the failed activity and RETURN the failure outcome instead of
re-raising. -/
def execute {Data Ctx Res : Type} (name desc : String)
    (analyze : Data → Ctx → Except String Res) (t0 t1 : ℕ)
    (s : AgentState Res) (d : Data) (ctx : Ctx) :
    AgentState Res × Outcome Res :=
  let s1 : AgentState Res :=
    { s with
      status := .running
      start_time := some t0
      error := none
      activities := s.activities ++ [⟨name, "Starting " ++ desc, .running⟩] }
  match analyze d ctx with
  | .ok r =>
      let s2 : AgentState Res :=
        { s1 with
          results := some r
          status := .completed
          end_time := some t1
          activities := s1.activities ++ [⟨name, "Completed " ++ desc, .completed⟩] }
      (s2, ⟨name, "completed", some r, none, s2.duration t1, some t1⟩)
  | .error e =>
      let s2 : AgentState Res :=
        { s1 with
          status := .failed
          error := some e
          end_time := some t1
          activities := s1.activities ++ [⟨name, "Failed: " ++ e, .failed⟩] }
      (s2, ⟨name, "failed", none, some e, s2.duration t1, some t1⟩)

/-- C1: on an exception from `analyze`, `execute` marks the stage
failed, stores the message as its error, records the end time, and
returns a failure outcome (stage name, status "failed", the error,
duration, timestamp) instead of propagating; on a normal return it
stores the results, marks the stage completed, and returns a
"completed" outcome with the results, duration and timestamp. -/
theorem execute_contract {Data Ctx Res : Type} (name desc : String)
    (analyze : Data → Ctx → Except String Res) (t0 t1 : ℕ)
    (s : AgentState Res) (d : Data) (ctx : Ctx) :
    (∀ e, analyze d ctx = .error e →
      (execute name desc analyze t0 t1 s d ctx).1.status = .failed ∧
      (execute name desc analyze t0 t1 s d ctx).1.error = some e ∧
      (execute name desc analyze t0 t1 s d ctx).1.end_time = some t1 ∧
      (execute name desc analyze t0 t1 s d ctx).2.agent = name ∧
      (execute name desc analyze t0 t1 s d ctx).2.status = "failed" ∧
      (execute name desc analyze t0 t1 s d ctx).2.error = some e ∧
      (execute name desc analyze t0 t1 s d ctx).2.results = none ∧
      (execute name desc analyze t0 t1 s d ctx).2.duration = some (t1 - t0) ∧
      (execute name desc analyze t0 t1 s d ctx).2.timestamp = some t1) ∧
    (∀ r, analyze d ctx = .ok r →
      (execute name desc analyze t0 t1 s d ctx).1.status = .completed ∧
      (execute name desc analyze t0 t1 s d ctx).1.results = some r ∧
      (execute name desc analyze t0 t1 s d ctx).1.end_time = some t1 ∧
      (execute name desc analyze t0 t1 s d ctx).2.agent = name ∧
      (execute name desc analyze t0 t1 s d ctx).2.status = "completed" ∧
      (execute name desc analyze t0 t1 s d ctx).2.results = some r ∧
      (execute name desc analyze t0 t1 s d ctx).2.error = none ∧
      (execute name desc analyze t0 t1 s d ctx).2.duration = some (t1 - t0) ∧
      (execute name desc analyze t0 t1 s d ctx).2.timestamp = some t1) := by
  constructor
  · intro e he
    unfold execute
    rw [he]
    exact ⟨rfl, rfl, rfl, rfl, rfl, rfl, rfl, rfl, rfl⟩
  · intro r hr
    unfold execute
    rw [hr]
    exact ⟨rfl, rfl, rfl, rfl, rfl, rfl, rfl, rfl, rfl⟩

/-- Witness for C1: both branches of the contract at concrete inputs
(an `analyze` that raises "boom", and one that returns 7). -/
theorem execute_contract_witness :
    (execute "p" "d" (fun (_ : Unit) (_ : Unit) =>
        (Except.error "boom" : Except String ℕ)) 2 5 (initState ℕ) () ()).2.status =
        "failed" ∧
      (execute "p" "d" (fun (_ : Unit) (_ : Unit) =>
        (Except.error "boom" : Except String ℕ)) 2 5 (initState ℕ) () ()).2.error =
        some "boom" ∧
      (execute "p" "d" (fun (_ : Unit) (_ : Unit) =>
        (Except.error "boom" : Except String ℕ)) 2 5 (initState ℕ) () ()).2.duration =
        some 3 ∧
      (execute "p" "d" (fun (_ : Unit) (_ : Unit) =>
        (Except.ok 7 : Except String ℕ)) 2 5 (initState ℕ) () ()).2.status =
        "completed" ∧
      (execute "p" "d" (fun (_ : Unit) (_ : Unit) =>
        (Except.ok 7 : Except String ℕ)) 2 5 (initState ℕ) () ()).2.results = some 7 := by
  have hf := (execute_contract "p" "d"
    (fun (_ : Unit) (_ : Unit) => (Except.error "boom" : Except String ℕ))
    2 5 (initState ℕ) () ()).1 "boom" rfl
  have hk := (execute_contract "p" "d"
    (fun (_ : Unit) (_ : Unit) => (Except.ok 7 : Except String ℕ))
    2 5 (initState ℕ) () ()).2 7 rfl
  exact ⟨hf.2.2.2.2.1, hf.2.2.2.2.2.1, hf.2.2.2.2.2.2.2.1, hk.2.2.2.2.1, hk.2.2.2.2.2.1⟩

/-! ## Orchestrator (`orchestrator.py`, `AgentOrchestrator`)

The four stage `analyze` methods enter as function parameters over an
abstract data type and the shared context; `context` is modelled by
its two orchestrator-written keys (`profiler_results`, `insights` —
after a failed stage the source stores the empty dict, which every
reader's `.get(key, default)` treats exactly like an absent key, so
both collapse to `none`).  The orchestrator's own aggregation steps
(dict updates, list(...), `_create_summary`) are total, so the
`except` branch that would mark the whole run `failed` is
unreachable in the model — which is precisely the claimed behaviour:
a per-stage failure is caught inside `execute` and can never reach
it. -/

def registeredNames : List String :=
  ["data_profiler", "insight_discovery", "visualization", "recommendation"]

structure OrchCtx (Res : Type) where
  profiler_results : Option Res
  insights : Option Res

structure OrchResult (Res : Type) where
  status : String
  agents_run : List String
  results : List (String × Outcome Res)
  summary_total : ℕ
  summary_successful : ℕ
  summary_failed : ℕ

/-- Which stages run: all when `agents_to_run is None`, otherwise
exactly the requested ones that are registered (the dict comprehension
silently drops unknown names, and the four fixed `if name in agents`
blocks keep the fixed order). -/
def stageRuns (toRun : Option (List String)) (name : String) : Bool :=
  match toRun with
  | none => true
  | some l => decide (name ∈ l)

/-- `AgentOrchestrator.analyze`: the fixed-order sequential run with
per-stage `execute`, context folding after the profiler and insight
stages, and the aggregate result.  `t0`/`t1` are the per-stage clock
instants and `sp si sv sr` the stages' pre-run states. -/
def orch_analyze {Data Res : Type}
    (fp fi fv fr : Data → OrchCtx Res → Except String Res)
    (sp si sv sr : AgentState Res) (t0 t1 : ℕ)
    (d : Data) (ctx0 : OrchCtx Res) (toRun : Option (List String)) :
    OrchResult Res :=
  let res1 : List (String × Outcome Res) × OrchCtx Res :=
    if stageRuns toRun "data_profiler" then
      let o := (execute "data_profiler" "Data quality and profiling analysis"
        fp t0 t1 sp d ctx0).2
      ([("data_profiler", o)], { ctx0 with profiler_results := o.results })
    else ([], ctx0)
  let res2 : List (String × Outcome Res) × OrchCtx Res :=
    if stageRuns toRun "insight_discovery" then
      let o := (execute "insight_discovery" "Pattern and trend discovery"
        fi t0 t1 si d res1.2).2
      (res1.1 ++ [("insight_discovery", o)], { res1.2 with insights := o.results })
    else res1
  let res3 : List (String × Outcome Res) :=
    if stageRuns toRun "visualization" then
      res2.1 ++ [("visualization", (execute "visualization"
        "Chart generation and visualization" fv t0 t1 sv d res2.2).2)]
    else res2.1
  let res4 : List (String × Outcome Res) :=
    if stageRuns toRun "recommendation" then
      res3 ++ [("recommendation", (execute "recommendation"
        "Actionable recommendations and next steps" fr t0 t1 sr d res2.2).2)]
    else res3
  ⟨"completed", res4.map Prod.fst, res4, res4.length,
    (res4.filter fun p => p.2.status == "completed").length,
    (res4.filter fun p => p.2.status == "failed").length⟩

/-- `AgentOrchestrator.run_single_agent`: dispatch on the registered
names, `ValueError` otherwise. -/
def run_single_agent {Data Res : Type}
    (fp fi fv fr : Data → OrchCtx Res → Except String Res)
    (sp si sv sr : AgentState Res) (t0 t1 : ℕ)
    (name : String) (d : Data) (ctx : OrchCtx Res) :
    Except String (Outcome Res) :=
  if name = "data_profiler" then
    .ok (execute "data_profiler" "Data quality and profiling analysis"
      fp t0 t1 sp d ctx).2
  else if name = "insight_discovery" then
    .ok (execute "insight_discovery" "Pattern and trend discovery"
      fi t0 t1 si d ctx).2
  else if name = "visualization" then
    .ok (execute "visualization" "Chart generation and visualization"
      fv t0 t1 sv d ctx).2
  else if name = "recommendation" then
    .ok (execute "recommendation" "Actionable recommendations and next steps"
      fr t0 t1 sr d ctx).2
  else .error ("Agent '" ++ name ++ "' not found")

/-- Any outcome produced by `execute` has status "completed" or
"failed", and "failed" exactly when an error message was captured. -/
theorem execute_outcome_status {Data Ctx Res : Type} (name desc : String)
    (f : Data → Ctx → Except String Res) (t0 t1 : ℕ) (s : AgentState Res)
    (d : Data) (ctx : Ctx) :
    ((execute name desc f t0 t1 s d ctx).2.status = "completed" ∨
      (execute name desc f t0 t1 s d ctx).2.status = "failed") ∧
      ((execute name desc f t0 t1 s d ctx).2.status = "failed" ↔
        (execute name desc f t0 t1 s d ctx).2.error.isSome = true) := by
  unfold execute
  cases f d ctx with
  | ok r =>
    refine ⟨Or.inl rfl, ?_⟩
    show ("completed" = "failed") ↔ ((none : Option String).isSome = true)
    decide
  | error e =>
    refine ⟨Or.inr rfl, ?_⟩
    show ("failed" = "failed") ↔ ((some e).isSome = true)
    simp

theorem orch_results_shape {Data Res : Type}
    (fp fi fv fr : Data → OrchCtx Res → Except String Res)
    (sp si sv sr : AgentState Res) (t0 t1 : ℕ)
    (d : Data) (ctx0 : OrchCtx Res) (toRun : Option (List String)) :
    ∀ p ∈ (orch_analyze fp fi fv fr sp si sv sr t0 t1 d ctx0 toRun).results,
      ∃ Ctx2 : OrchCtx Res, ∃ desc : String,
        ∃ f : Data → OrchCtx Res → Except String Res, ∃ st : AgentState Res,
        p.2 = (execute p.1 desc f t0 t1 st d Ctx2).2 := by
  intro p hp
  unfold orch_analyze at hp
  dsimp only at hp
  split at hp <;> split at hp <;> split at hp <;> split at hp <;>
    simp only [List.mem_append, List.mem_singleton, List.mem_cons,
      List.not_mem_nil, or_false, false_or, List.nil_append, or_assoc] at hp
  all_goals
    first
      | exact hp.elim
      | (rcases hp with rfl | rfl | rfl | rfl <;> exact ⟨_, _, _, _, rfl⟩)

def executedNames (toRun : Option (List String)) : List String :=
  registeredNames.filter (stageRuns toRun)

theorem orch_agents_run_eq {Data Res : Type}
    (fp fi fv fr : Data → OrchCtx Res → Except String Res)
    (sp si sv sr : AgentState Res) (t0 t1 : ℕ)
    (d : Data) (ctx0 : OrchCtx Res) (toRun : Option (List String)) :
    (orch_analyze fp fi fv fr sp si sv sr t0 t1 d ctx0 toRun).agents_run =
      executedNames toRun := by
  unfold orch_analyze executedNames registeredNames
  dsimp only
  by_cases h1 : stageRuns toRun "data_profiler" = true <;>
    by_cases h2 : stageRuns toRun "insight_discovery" = true <;>
      by_cases h3 : stageRuns toRun "visualization" = true <;>
        by_cases h4 : stageRuns toRun "recommendation" = true <;>
          simp [h1, h2, h3, h4, List.filter_cons]

/-- The status string a stage outcome ends up with, as a function of
its `analyze` result. -/
def statusOfExcept {Res : Type} : Except String Res → String
  | .ok _ => "completed"
  | .error _ => "failed"

theorem execute_status_eq {Data Ctx Res : Type} (name desc : String)
    (f : Data → Ctx → Except String Res) (t0 t1 : ℕ) (s : AgentState Res)
    (d : Data) (ctx : Ctx) :
    (execute name desc f t0 t1 s d ctx).2.status = statusOfExcept (f d ctx) := by
  unfold execute statusOfExcept
  cases f d ctx <;> rfl

theorem orch_profiler_slot {Data Res : Type}
    (fp fi fv fr : Data → OrchCtx Res → Except String Res)
    (sp si sv sr : AgentState Res) (t0 t1 : ℕ)
    (d : Data) (ctx0 : OrchCtx Res) (toRun : Option (List String))
    (hrun : stageRuns toRun "data_profiler" = true) :
    (orch_analyze fp fi fv fr sp si sv sr t0 t1 d ctx0 toRun).results.lookup
        "data_profiler" =
      some (execute "data_profiler" "Data quality and profiling analysis"
        fp t0 t1 sp d ctx0).2 := by
  unfold orch_analyze
  dsimp only
  rw [if_pos hrun]
  by_cases h2 : stageRuns toRun "insight_discovery" = true <;>
    by_cases h3 : stageRuns toRun "visualization" = true <;>
      by_cases h4 : stageRuns toRun "recommendation" = true <;>
        simp [h2, h3, h4, List.lookup]

/-- C2: for every dataset, context, requested-stage subset and every
possible behaviour of the four stage bodies (including raising), the
orchestrator run reports top-level status "completed"; the executed
stages are exactly the requested registered ones in the fixed order,
independent of any per-stage failure (so stages after a failing one
still run); every stage slot is an `execute` outcome whose status is
"completed" or "failed", "failed" exactly when an error message was
captured; and the profiler slot is the `execute` outcome of the
profiler body, with status "failed" precisely when that body raised.
The aggregate status could only be "failed" via an exception in the
orchestrator's own aggregation code, which is total. -/
theorem orch_analyze_spec {Data Res : Type}
    (fp fi fv fr : Data → OrchCtx Res → Except String Res)
    (sp si sv sr : AgentState Res) (t0 t1 : ℕ)
    (d : Data) (ctx0 : OrchCtx Res) (toRun : Option (List String)) :
    (orch_analyze fp fi fv fr sp si sv sr t0 t1 d ctx0 toRun).status =
        "completed" ∧
      (orch_analyze fp fi fv fr sp si sv sr t0 t1 d ctx0 toRun).agents_run =
        executedNames toRun ∧
      (orch_analyze fp fi fv fr sp si sv sr t0 t1 d ctx0 toRun).results.map
          Prod.fst =
        executedNames toRun ∧
      (∀ p ∈ (orch_analyze fp fi fv fr sp si sv sr t0 t1 d ctx0 toRun).results,
        (p.2.status = "completed" ∨ p.2.status = "failed") ∧
          (p.2.status = "failed" ↔ p.2.error.isSome = true)) ∧
      (stageRuns toRun "data_profiler" = true →
        (orch_analyze fp fi fv fr sp si sv sr t0 t1 d ctx0 toRun).results.lookup
            "data_profiler" =
          some (execute "data_profiler" "Data quality and profiling analysis"
            fp t0 t1 sp d ctx0).2 ∧
        (execute "data_profiler" "Data quality and profiling analysis"
            fp t0 t1 sp d ctx0).2.status = statusOfExcept (fp d ctx0)) := by
  refine ⟨rfl, orch_agents_run_eq fp fi fv fr sp si sv sr t0 t1 d ctx0 toRun,
    orch_agents_run_eq fp fi fv fr sp si sv sr t0 t1 d ctx0 toRun, ?_, ?_⟩
  · intro p hp
    obtain ⟨c2, desc, f, st, hpe⟩ :=
      orch_results_shape fp fi fv fr sp si sv sr t0 t1 d ctx0 toRun p hp
    rw [hpe]
    exact execute_outcome_status p.1 desc f t0 t1 st d c2
  · intro hrun
    exact ⟨orch_profiler_slot fp fi fv fr sp si sv sr t0 t1 d ctx0 toRun hrun,
      execute_status_eq _ _ fp t0 t1 sp d ctx0⟩

/-- Witness for C2 on concrete inputs: a profiler body that raises
"boom" while the other three succeed; the run is still "completed",
all four stages ran, and the profiler slot is failed. -/
theorem orch_analyze_spec_witness :
    (orch_analyze
          (fun (_ : Unit) (_ : OrchCtx Unit) => (Except.error "boom" : Except String Unit))
          (fun _ _ => Except.ok ()) (fun _ _ => Except.ok ())
          (fun _ _ => Except.ok ()) (initState Unit) (initState Unit)
          (initState Unit) (initState Unit) 0 1 () ⟨none, none⟩ none).status =
        "completed" ∧
      (orch_analyze
          (fun (_ : Unit) (_ : OrchCtx Unit) => (Except.error "boom" : Except String Unit))
          (fun _ _ => Except.ok ()) (fun _ _ => Except.ok ())
          (fun _ _ => Except.ok ()) (initState Unit) (initState Unit)
          (initState Unit) (initState Unit) 0 1 () ⟨none, none⟩ none).agents_run =
        registeredNames ∧
      (execute "data_profiler" "Data quality and profiling analysis"
          (fun (_ : Unit) (_ : OrchCtx Unit) =>
            (Except.error "boom" : Except String Unit))
          0 1 (initState Unit) () ⟨none, none⟩).2.status = "failed" := by
  have h := orch_analyze_spec
    (fun (_ : Unit) (_ : OrchCtx Unit) => (Except.error "boom" : Except String Unit))
    (fun _ _ => Except.ok ()) (fun _ _ => Except.ok ())
    (fun _ _ => Except.ok ()) (initState Unit) (initState Unit)
    (initState Unit) (initState Unit) 0 1 () ⟨none, none⟩ none
  refine ⟨h.1, ?_, ?_⟩
  · rw [h.2.1]
    rfl
  · exact (h.2.2.2.2 rfl).2

/-- C10: requested stage names that are not registered agents are
silently skipped by `analyze` — the run still completes, the unknown
name never appears in `agents_run`, and the registered requested
stages still run — whereas `run_single_agent` with an unregistered
name raises `ValueError("Agent '...' not found")`. -/
theorem orch_unknown_agents {Data Res : Type}
    (fp fi fv fr : Data → OrchCtx Res → Except String Res)
    (sp si sv sr : AgentState Res) (t0 t1 : ℕ)
    (d : Data) (ctx0 : OrchCtx Res) (toRun : List String) (u : String)
    (hu : u ∉ registeredNames) :
    (orch_analyze fp fi fv fr sp si sv sr t0 t1 d ctx0 (some toRun)).status =
        "completed" ∧
      u ∉ (orch_analyze fp fi fv fr sp si sv sr t0 t1 d ctx0
          (some toRun)).agents_run ∧
      (∀ k ∈ registeredNames, k ∈ toRun →
        k ∈ (orch_analyze fp fi fv fr sp si sv sr t0 t1 d ctx0
          (some toRun)).agents_run) ∧
      run_single_agent fp fi fv fr sp si sv sr t0 t1 u d ctx0 =
        .error ("Agent '" ++ u ++ "' not found") := by
  have hrun := orch_agents_run_eq fp fi fv fr sp si sv sr t0 t1 d ctx0 (some toRun)
  refine ⟨rfl, ?_, ?_, ?_⟩
  · rw [hrun]
    intro hmem
    exact hu (List.mem_of_mem_filter hmem)
  · intro k hk hkt
    rw [hrun]
    apply List.mem_filter.mpr
    exact ⟨hk, by simpa [stageRuns] using hkt⟩
  · have h1 : u ≠ "data_profiler" := fun h => hu (h ▸ by decide)
    have h2 : u ≠ "insight_discovery" := fun h => hu (h ▸ by decide)
    have h3 : u ≠ "visualization" := fun h => hu (h ▸ by decide)
    have h4 : u ≠ "recommendation" := fun h => hu (h ▸ by decide)
    unfold run_single_agent
    rw [if_neg h1, if_neg h2, if_neg h3, if_neg h4]

/-- Witness for C10: the unknown name "bogus" alongside a registered
one. -/
theorem orch_unknown_agents_witness :
    "bogus" ∉ (orch_analyze (fun (_ : Unit) (_ : OrchCtx Unit) => (Except.ok () : Except String Unit))
        (fun _ _ => Except.ok ()) (fun _ _ => Except.ok ())
        (fun _ _ => Except.ok ()) (initState Unit) (initState Unit)
        (initState Unit) (initState Unit) 0 1 () ⟨none, none⟩
        (some ["data_profiler", "bogus"])).agents_run ∧
      "data_profiler" ∈ (orch_analyze
        (fun (_ : Unit) (_ : OrchCtx Unit) => (Except.ok () : Except String Unit))
        (fun _ _ => Except.ok ()) (fun _ _ => Except.ok ())
        (fun _ _ => Except.ok ()) (initState Unit) (initState Unit)
        (initState Unit) (initState Unit) 0 1 () ⟨none, none⟩
        (some ["data_profiler", "bogus"])).agents_run ∧
      run_single_agent (fun (_ : Unit) (_ : OrchCtx Unit) => (Except.ok () : Except String Unit))
        (fun _ _ => Except.ok ()) (fun _ _ => Except.ok ())
        (fun _ _ => Except.ok ()) (initState Unit) (initState Unit)
        (initState Unit) (initState Unit) 0 1 "bogus" () ⟨none, none⟩ =
        .error "Agent 'bogus' not found" := by
  have h := orch_unknown_agents (fun (_ : Unit) (_ : OrchCtx Unit) => (Except.ok () : Except String Unit))
    (fun _ _ => Except.ok ()) (fun _ _ => Except.ok ())
    (fun _ _ => Except.ok ()) (initState Unit) (initState Unit)
    (initState Unit) (initState Unit) 0 1 () ⟨none, none⟩
    ["data_profiler", "bogus"] "bogus" (by decide)
  exact ⟨h.2.1, h.2.2.1 "data_profiler" (by decide) (by decide), h.2.2.2⟩

end ADAA
